import Mathlib

/-!
# xpad_joystick_disabler

A shallow embedding of `xpad_joystick_disabler.c` and the properties of its
device-topology inspection and driver arbitration logic.

Modelling conventions

* A `struct udev_device*` is a `Device`: its syspath (its identity), its sysname
  (`udev_device_get_sysname`, which may be `NULL`) and its parent
  (`udev_device_get_parent`, which may be `NULL`).  The type is inductive, so every
  parent chain is finite and acyclic.
* The driver bound to a device (`udev_device_get_driver`) is read from the current
  `World` when the call is made: every loop iteration of the program creates fresh
  device objects, so a write to a control file that changes a binding is seen by the
  reads that follow it.
* `assert` is enabled (no `NDEBUG`): a failing assertion aborts the process, which is
  the outcome `Res.aborted`.  `udev_enumerate_new` and
  `udev_enumerate_add_match_subsystem` are taken to succeed, so their assertions hold;
  the assertions on `udev`, `cb`, `parent`, `path`, `value` and `user_data` hold at every
  call site of the program.
* `udev_*_unref` only releases memory and is not modelled.
-/

namespace XpadJoystickDisabler

/-! ## The device registry -/

/-- A device handle (`struct udev_device*`). -/
inductive Device where
  | mk (syspath : String) (sysname : Option String) (parent : Option Device)

/-- The syspath of a device, its identity in sysfs. -/
def Device.syspath : Device → String
  | .mk p _ _ => p

/-- The C call `udev_device_get_sysname`; `none` is `NULL`. -/
def udev_device_get_sysname : Device → Option String
  | .mk _ n _ => n

/-- The C call `udev_device_get_parent`; `none` is `NULL`. -/
def udev_device_get_parent : Device → Option Device
  | .mk _ _ p => p

/-- The state outside the program that a run reads and changes. -/
structure World where
  /-- The driver bound to the device at a syspath, if any. -/
  drivers : String → Option String
  /-- The writes made to control files so far: control path and value written. -/
  actions : List (String × String)
  /-- The lines printed on standard output. -/
  stdout : List String
  /-- The text printed on standard error. -/
  stderr : List String

/-- The C call `udev_device_get_driver`; `none` is `NULL` (no driver bound). -/
def udev_device_get_driver (w : World) (d : Device) : Option String :=
  w.drivers d.syspath

/-- The external collaborators of one run. -/
structure Env where
  /-- Whether `udev_new` yields a context. -/
  udev_new : Bool
  /-- The devices listed by `udev_enumerate_scan_devices` for a subsystem; `none` is a
  negative status.  An entry `none` is a list entry whose name is `NULL` or for which
  `udev_device_new_from_syspath` yields `NULL`. -/
  scan : String → Option (List (Option Device))
  /-- Whether `open(path, O_WRONLY)` yields a descriptor in the given state. -/
  sysfs_open : String → World → Bool
  /-- The effect on the driver bindings of writing a value to a control path; `none` is
  a failed `write`. -/
  sysfs_write : String → String → (String → Option String) → Option (String → Option String)

/-- The outcome of a piece of the program: it ran to its end, or an assertion failed. -/
inductive Res (α : Type) where
  | done (a : α) (w : World)
  | aborted (w : World)

/-- The state in which a piece of the program ended. -/
def Res.world {α : Type} : Res α → World
  | .done _ w => w
  | .aborted w => w

/-- The value a piece of the program returned, when it ran to its end. -/
def Res.value {α : Type} : Res α → Option α
  | .done a _ => some a
  | .aborted _ => none

def SYSFS_HID_GENERIC_BIND : String := "/sys/bus/hid/drivers/hid-generic/bind"

def SYSFS_HID_GENERIC_UNBIND : String := "/sys/bus/hid/drivers/hid-generic/unbind"

/-! ## C strings and the joystick test -/

/-- The bytes of a C string in memory: the characters before the first NUL, then the
terminating NUL. -/
def c_str (s : String) : List Char :=
  s.toList.takeWhile (fun c => c ≠ '\x00') ++ ['\x00']

/-- The C call `strlen`. -/
def strlen (s : String) : Nat :=
  (s.toList.takeWhile (fun c => c ≠ '\x00')).length

/-- Reading `s[i]`; `none` is a read outside the NUL-terminated string. -/
def c_read (s : String) (i : Nat) : Option Char :=
  (c_str s)[i]?

/-- The test `sysname && ('j' == sysname[0]) && ('s' == sysname[1])`, with the
short-circuit evaluation of `&&`; `none` is a read outside the string. -/
def sysname_is_js : Option String → Option Bool
  | none => some false
  | some s =>
    match c_read s 0 with
    | none => none
    | some c0 =>
      if c0 = 'j' then
        match c_read s 1 with
        | none => none
        | some c1 => some (decide (c1 = 's'))
      else some false

/-! ## enumerate_js_parent_devices -/

inductive handle_js_parent_ret where
  | IGNORE_PARENT
  | NEXT_DEVICE
  | CANCEL_ENUMERATION
  deriving DecidableEq, Repr

open handle_js_parent_ret

/-- The type `handle_js_parent_device_cb`: a callback receives the parent device and the
user data, and may change the user data and the world. -/
abbrev handle_js_parent_device_cb (σ : Type) : Type :=
  Device → σ → World → Res (handle_js_parent_ret × σ)

/-- The loop `while (parent && !next_device && !cancel)` entered with a parent that is
not `NULL`; it returns `cancel` and the user data. -/
def js_parent_loop {σ : Type} (cb : handle_js_parent_device_cb σ) :
    Device → Bool → Bool → σ → World → Res (Bool × σ)
  | .mk path name par, next_device, cancel, s, w =>
    if !next_device && !cancel then
      match cb (.mk path name par) s w with
      | .aborted w' => .aborted w'
      | .done (r, s') w' =>
        let next_device' := match r with
          | NEXT_DEVICE => true
          | _ => next_device
        let cancel' := match r with
          | CANCEL_ENUMERATION => true
          | _ => cancel
        match par with
        | none => .done (cancel', s') w'
        | some p => js_parent_loop cb p next_device' cancel' s' w'
    else .done (cancel, s) w

/-- The body of `udev_list_entry_foreach` over the remaining list entries. -/
def js_entry_loop {σ : Type} (cb : handle_js_parent_device_cb σ) :
    List (Option Device) → Bool → σ → World → Res σ
  | [], _, s, w => .done s w
  | none :: rest, cancel, s, w =>
    if cancel then .done s w else js_entry_loop cb rest cancel s w
  | some dev :: rest, cancel, s, w =>
    if sysname_is_js (udev_device_get_sysname dev) = some true then
      match udev_device_get_parent dev with
      | none => if cancel then .done s w else js_entry_loop cb rest cancel s w
      | some parent =>
        match js_parent_loop cb parent false cancel s w with
        | .aborted w' => .aborted w'
        | .done (cancel', s') w' =>
          if cancel' then .done s' w' else js_entry_loop cb rest cancel' s' w'
    else if cancel then .done s w else js_entry_loop cb rest cancel s w

def enumerate_js_parent_devices {σ : Type} (env : Env)
    (cb : handle_js_parent_device_cb σ) (cb_user_data : σ) (w : World) : Res σ :=
  match env.scan "input" with
  | none => .done cb_user_data w
  | some devices => js_entry_loop cb devices false cb_user_data w

/-! ## The driver control file -/

def write_str_to_file (env : Env) (path value : String) (w : World) : Res Unit :=
  if env.sysfs_open path w then
    .done () { w with
      drivers := (env.sysfs_write path value w.drivers).getD w.drivers
      actions := w.actions ++ [(path, value)] }
  else .aborted w

/-! ## The classifier and the two passes -/

def check_for_xpad_cb : handle_js_parent_device_cb Bool :=
  fun parent user_data w =>
    match udev_device_get_driver w parent with
    | some parent_driver =>
      if parent_driver = "xpad" then .done (CANCEL_ENUMERATION, true) w
      else .done (IGNORE_PARENT, user_data) w
    | none => .done (IGNORE_PARENT, user_data) w

def check_if_xpad_active (env : Env) (w : World) : Res Bool :=
  enumerate_js_parent_devices env check_for_xpad_cb false w

def deactivate_device_if_hid_generic_cb (env : Env) : handle_js_parent_device_cb Unit :=
  fun parent user_data w =>
    match udev_device_get_driver w parent with
    | some parent_driver =>
      if parent_driver = "hid-generic" then
        match udev_device_get_sysname parent with
        | some parent_sysname =>
          match write_str_to_file env SYSFS_HID_GENERIC_UNBIND parent_sysname w with
          | .aborted w' => .aborted w'
          | .done _ w' => .done (NEXT_DEVICE, user_data) w'
        | none => .done (IGNORE_PARENT, user_data) w
      else .done (IGNORE_PARENT, user_data) w
    | none => .done (IGNORE_PARENT, user_data) w

def deactivate_hid_generic_js_devices (env : Env) (w : World) : Res Unit :=
  enumerate_js_parent_devices env (deactivate_device_if_hid_generic_cb env) () w

/-- The body of `udev_list_entry_foreach` in `activate_hid_generic_js_devices`. -/
def hid_entry_loop (env : Env) : List (Option Device) → World → Res Unit
  | [], w => .done () w
  | none :: rest, w => hid_entry_loop env rest w
  | some dev :: rest, w =>
    match udev_device_get_driver w dev with
    | none =>
      match udev_device_get_sysname dev with
      | some sysname =>
        match write_str_to_file env SYSFS_HID_GENERIC_BIND sysname w with
        | .aborted w' => .aborted w'
        | .done _ w' => hid_entry_loop env rest w'
      | none => hid_entry_loop env rest w
    | some _ => hid_entry_loop env rest w

def activate_hid_generic_js_devices (env : Env) (w : World) : Res Unit :=
  match env.scan "hid" with
  | none => .done () w
  | some devices => hid_entry_loop env devices w

/-- The line printed before the disable pass. -/
def LINE_XPAD_ACTIVE : String := "Xpad device active - deactivate other joystick devices"

/-- The line printed before the enable pass. -/
def LINE_NO_XPAD : String := "No Xpad device active - activate all joystick devices"

/-- Appending a line to standard output (`printf`). -/
def printf (line : String) (w : World) : World :=
  { w with stdout := w.stdout ++ [line] }

/-- The program; the value returned is the exit code. -/
def main (env : Env) (w : World) : Res Nat :=
  if !env.udev_new then
    .done 1 { w with stderr := w.stderr ++ ["Could not acquire udev context"] }
  else
    match check_if_xpad_active env w with
    | .aborted w' => .aborted w'
    | .done true w1 =>
      match deactivate_hid_generic_js_devices env
          (printf LINE_XPAD_ACTIVE w1) with
      | .aborted w' => .aborted w'
      | .done _ w2 => .done 0 w2
    | .done false w1 =>
      match activate_hid_generic_js_devices env
          (printf LINE_NO_XPAD w1) with
      | .aborted w' => .aborted w'
      | .done _ w2 => .done 0 w2

/-! ## Specification-side definitions -/

/-- The ancestry chain of a device: its parents, nearest first, until a device has no
parent. -/
def ancestors : Device → List Device
  | .mk _ _ none => []
  | .mk _ _ (some p) => p :: ancestors p

/-- Whether a sysname is present and starts with the two characters `js`. -/
def starts_with_js : Option String → Bool
  | none => false
  | some s => decide (s.toList.take 2 = ['j', 's'])

/-- The devices of a scan that exist and whose sysname starts with `js`, in enumeration
order. -/
def js_devices (devices : List (Option Device)) : List Device :=
  (devices.filterMap id).filter (fun d => starts_with_js (udev_device_get_sysname d))

/-- The calls made for one joystick device, as the specification words them: the
ancestors are passed nearest first; `IGNORE_PARENT` goes on to the next ancestor,
`NEXT_DEVICE` ends this device, `CANCEL_ENUMERATION` ends everything.  The boolean
tells whether the enumeration was cancelled. -/
def spec_walk {σ : Type} (cb : handle_js_parent_device_cb σ) :
    List Device → σ → World → Res (Bool × σ)
  | [], s, w => .done (false, s) w
  | a :: rest, s, w =>
    match cb a s w with
    | .aborted w' => .aborted w'
    | .done (IGNORE_PARENT, s') w' => spec_walk cb rest s' w'
    | .done (NEXT_DEVICE, s') w' => .done (false, s') w'
    | .done (CANCEL_ENUMERATION, s') w' => .done (true, s') w'

/-- The calls made for a list of joystick devices, as the specification words them:
device after device in order, nothing at all once the enumeration was cancelled. -/
def spec_enumerate {σ : Type} (cb : handle_js_parent_device_cb σ) :
    List Device → σ → World → Res σ
  | [], s, w => .done s w
  | d :: rest, s, w =>
    match spec_walk cb (ancestors d) s w with
    | .aborted w' => .aborted w'
    | .done (true, s') w' => .done s' w'
    | .done (false, s') w' => spec_enumerate cb rest s' w'

/-- A callback that also records, in the user data, the devices it was passed. -/
def record {σ : Type} (cb : handle_js_parent_device_cb σ) :
    handle_js_parent_device_cb (σ × List Device) :=
  fun d st w =>
    match cb d st.1 w with
    | .aborted w' => .aborted w'
    | .done (r, s') w' => .done (r, (s', st.2 ++ [d])) w'

/-- Whether a device is bound to `hid-generic` in the given state and has a sysname. -/
def is_unbind_target (w : World) (a : Device) : Bool :=
  decide (udev_device_get_driver w a = some "hid-generic") && (udev_device_get_sysname a).isSome

/-- The sysname of the nearest device of a chain that is bound to `hid-generic` and has
a sysname. -/
def unbind_target_in (w : World) (l : List Device) : Option String :=
  (l.find? (is_unbind_target w)).bind udev_device_get_sysname

/-- The sysname of the nearest ancestor of a device that is bound to `hid-generic` and
has a sysname. -/
def nearest_unbind_target (w : World) (d : Device) : Option String :=
  unbind_target_in w (ancestors d)

/-- The state after the value was written to an opened control file. -/
def written (env : Env) (path value : String) (w : World) : World :=
  { w with
    drivers := (env.sysfs_write path value w.drivers).getD w.drivers
    actions := w.actions ++ [(path, value)] }

/-- What the disable pass does for one joystick device when the control file can be
opened: one unbind of the nearest target, or nothing when there is none. -/
def unbind_step (env : Env) (w : World) (d : Device) : World :=
  match nearest_unbind_target w d with
  | none => w
  | some name => written env SYSFS_HID_GENERIC_UNBIND name w

/-- The sysname to bind for an entry of the hid scan: the entry is a device, no driver
is bound to it, and it has a sysname. -/
def bind_target (w : World) (e : Option Device) : Option String :=
  match e with
  | none => none
  | some dev =>
    if udev_device_get_driver w dev = none then udev_device_get_sysname dev else none

/-- What the enable pass does for one entry when the control file can be opened. -/
def bind_step (env : Env) (w : World) (e : Option Device) : World :=
  match bind_target w e with
  | none => w
  | some name => written env SYSFS_HID_GENERIC_BIND name w

/-- The control file can be opened whenever the program tries. -/
def opens (env : Env) (path : String) : Prop :=
  ∀ w : World, env.sysfs_open path w = true

/-- Writing to the control file leaves the driver bindings as they are, as with an
adapter that only records the calls. -/
def keeps_bindings (env : Env) (path : String) : Prop :=
  ∀ (value : String) (d : String → Option String), (env.sysfs_write path value d).getD d = d

/-! ## Example device trees -/

/-- An adapter that opens every control file and only records the writes. -/
def recorder (scan : String → Option (List (Option Device))) : Env where
  udev_new := true
  scan := scan
  sysfs_open := fun _ _ => true
  sysfs_write := fun _ _ d => some d

/-- A state with the given driver bindings in which nothing was written or printed. -/
def initial (drivers : String → Option String) : World where
  drivers := drivers
  actions := []
  stdout := []
  stderr := []

def usb_C : Device := .mk "/sys/C" (some "C") none

def hid_B : Device := .mk "/sys/C/B" (some "B") (some usb_C)

def hid_A : Device := .mk "/sys/C/B/A" (some "A") (some hid_B)

def js0 : Device := .mk "/sys/C/B/A/js0" (some "js0") (some hid_A)

/-- The scenario of the specification: a joystick with ancestry A, B, C nearest first. -/
def scan_ABC (subsystem : String) : Option (List (Option Device)) :=
  if subsystem = "input" then some [some js0]
  else if subsystem = "hid" then some [some hid_B, some hid_A]
  else some []

/-- A and B are bound to `hid-generic`, C to `xpad`. -/
def drivers_ABC (syspath : String) : Option String :=
  if syspath = "/sys/C/B/A" then some "hid-generic"
  else if syspath = "/sys/C/B" then some "hid-generic"
  else if syspath = "/sys/C" then some "xpad"
  else none

def ignore_cb : handle_js_parent_device_cb Unit :=
  fun _ s w => .done (IGNORE_PARENT, s) w

def next_cb : handle_js_parent_device_cb Unit :=
  fun _ s w => .done (NEXT_DEVICE, s) w

def cancel_cb : handle_js_parent_device_cb Unit :=
  fun _ s w => .done (CANCEL_ENUMERATION, s) w

def joystick1 : Device := .mk "/sys/C/B/A/joystick1" (some "joystick1") (some hid_A)

/-- The ancestor A of the scenario, for which `udev_device_get_sysname` yields `NULL`. -/
def hid_A_unnamed : Device := .mk "/sys/C/B/A" none (some hid_B)

def js0_unnamed : Device := .mk "/sys/C/B/A/js0" (some "js0") (some hid_A_unnamed)

def scan_unnamed (subsystem : String) : Option (List (Option Device)) :=
  if subsystem = "input" then some [some js0_unnamed] else some []

def hid0 : Device := .mk "/sys/hid0" (some "hid0") none

def hid1 : Device := .mk "/sys/hid1" (some "hid1") none

/-- A device of the hid subsystem for which `udev_device_get_sysname` yields `NULL`. -/
def hid_unnamed : Device := .mk "/sys/hid2" none none

/-- The scenario of the specification for the enable pass. -/
def scan_hid01 (subsystem : String) : Option (List (Option Device)) :=
  if subsystem = "hid" then some [some hid0, some hid1] else some []

/-- The device `hid1` is bound to another driver, `hid0` to none. -/
def drivers_hid01 (syspath : String) : Option String :=
  if syspath = "/sys/hid1" then some "some-other-driver" else none

/-- The scan of the input subsystem fails, the scan of the hid subsystem lists `hid0`. -/
def scan_input_fails (subsystem : String) : Option (List (Option Device)) :=
  if subsystem = "hid" then some [some hid0] else none

def scan_hid_unnamed (subsystem : String) : Option (List (Option Device)) :=
  if subsystem = "hid" then some [some hid_unnamed] else some []

/-- An adapter that opens every control file and whose every `write` fails. -/
def failing_writes (scan : String → Option (List (Option Device))) : Env where
  udev_new := true
  scan := scan
  sysfs_open := fun _ _ => true
  sysfs_write := fun _ _ _ => none

/-- An adapter whose control files can never be opened, as for a run without the
permission to write them. -/
def never_opens (scan : String → Option (List (Option Device))) : Env where
  udev_new := true
  scan := scan
  sysfs_open := fun _ _ => false
  sysfs_write := fun _ _ d => some d

/-- An adapter whose control files can be opened once only. -/
def opens_once (scan : String → Option (List (Option Device))) : Env where
  udev_new := true
  scan := scan
  sysfs_open := fun _ w => decide (w.actions.length < 1)
  sysfs_write := fun _ _ d => some d

/-- The unbind of the disable pass for one joystick device as claim C2 words it: the
sysname of the nearest ancestor whose driver equals `hid-generic`. -/
def claimed_unbind_target (w : World) (d : Device) : Option String :=
  ((ancestors d).find? (fun a => decide (udev_device_get_driver w a = some "hid-generic"))).bind
    udev_device_get_sysname

/-- The devices of a scan that claim C3 says are bound: those whose driver is absent. -/
def claimed_bind_devices (w : World) (devices : List (Option Device)) : List Device :=
  (devices.filterMap id).filter (fun d => decide (udev_device_get_driver w d = none))

/-! ## The simulated device tree of the idempotence property -/

/-- The devices of the input and hid scans together with their ancestors. -/
def known_devices (scan : String → Option (List (Option Device))) : List Device :=
  ((((scan "input").getD [] ++ (scan "hid").getD []).filterMap id).map
    (fun d => d :: ancestors d)).flatten

/-- Whether the syspath is that of a known device with the given sysname. -/
def is_named (scan : String → Option (List (Option Device))) (name syspath : String) : Bool :=
  (known_devices scan).any
    (fun d => decide (d.syspath = syspath) && decide (udev_device_get_sysname d = some name))

/-- The simulated driver control files: writing a sysname to the unbind file removes the
`hid-generic` binding of the device of that name, writing it to the bind file binds the
device of that name to `hid-generic` when it has no driver. -/
def simulated_write (scan : String → Option (List (Option Device))) (path value : String)
    (drivers : String → Option String) : Option (String → Option String) :=
  if path = SYSFS_HID_GENERIC_UNBIND then
    some (fun p =>
      if is_named scan value p && decide (drivers p = some "hid-generic") then none
      else drivers p)
  else if path = SYSFS_HID_GENERIC_BIND then
    some (fun p =>
      if is_named scan value p && decide (drivers p = none) then some "hid-generic"
      else drivers p)
  else some drivers

/-- A simulated device tree: the scans are fixed, the control files can be opened and
act on the driver bindings. -/
def simulated (scan : String → Option (List (Option Device))) : Env where
  udev_new := true
  scan := scan
  sysfs_open := fun _ _ => true
  sysfs_write := simulated_write scan

def usb_X : Device := .mk "/sys/X" (some "X") none

def js_x : Device := .mk "/sys/X/js0" (some "js0") (some usb_X)

def usb_G : Device := .mk "/sys/G" (some "G") none

def hid_G : Device := .mk "/sys/G/hid" (some "0003:G") (some usb_G)

def js_g : Device := .mk "/sys/G/hid/js1" (some "js1") (some hid_G)

/-- A gamepad X with its joystick, and a joystick of the HID device G. -/
def scan_pair (subsystem : String) : Option (List (Option Device)) :=
  if subsystem = "input" then some [some js_x, some js_g]
  else if subsystem = "hid" then some [some hid_G]
  else some []

/-- Two joysticks, an entry that does not resolve to a device, and a device that is not a
joystick. -/
def scan_two (subsystem : String) : Option (List (Option Device)) :=
  if subsystem = "input" then some [some js0, none, some joystick1, some js_g]
  else some []

/-- X is bound to `xpad`, the HID device G to `hid-generic`. -/
def drivers_pair (syspath : String) : Option String :=
  if syspath = "/sys/X" then some "xpad"
  else if syspath = "/sys/G/hid" then some "hid-generic"
  else none

/-- Every binding of the second state is that of the first, or a `hid-generic` binding of
the first that was removed. -/
def unbound_from (w w' : World) : Prop :=
  ∀ p, w'.drivers p = w.drivers p ∨ (w.drivers p = some "hid-generic" ∧ w'.drivers p = none)

/-- Every binding of the second state is that of the first, or a `hid-generic` binding
of a device that had no driver in the first. -/
def bound_from (w w' : World) : Prop :=
  ∀ p, w'.drivers p = w.drivers p ∨ (w.drivers p = none ∧ w'.drivers p = some "hid-generic")

/-! ## Lemmas on the joystick test -/

theorem sysname_is_js_eq (n : Option String) :
    sysname_is_js n = some (starts_with_js n) := by
  cases n with
  | none => rfl
  | some s =>
    rcases s with ⟨l⟩
    unfold sysname_is_js starts_with_js c_read c_str
    simp only [String.toList]
    cases l with
    | nil => simp
    | cons c t =>
      by_cases hc : c = 'j'
      · subst hc
        cases t with
        | nil => simp [List.takeWhile]
        | cons c2 t2 =>
          by_cases hc2 : c2 = '\x00'
          · subst hc2
            simp [List.takeWhile]
          · simp [List.takeWhile, hc2]
      · by_cases hc0 : c = '\x00'
        · subst hc0
          simp [List.takeWhile]
        · simp [List.takeWhile, hc, hc0]

/-! ## The loops of enumerate_js_parent_devices against the specification -/

theorem ancestors_eq (d : Device) :
    ancestors d = match udev_device_get_parent d with
      | none => []
      | some p => p :: ancestors p := by
  rcases d with ⟨path, name, par⟩
  cases par with
  | none => simp [ancestors, udev_device_get_parent]
  | some p => simp [ancestors, udev_device_get_parent]

theorem js_parent_loop_stop {σ : Type} (cb : handle_js_parent_device_cb σ) (p : Device)
    (next_device cancel : Bool) (s : σ) (w : World)
    (h : (!next_device && !cancel) = false) :
    js_parent_loop cb p next_device cancel s w = .done (cancel, s) w := by
  rcases p with ⟨path, name, par⟩
  unfold js_parent_loop
  simp [h]

theorem js_parent_loop_eq {σ : Type} (cb : handle_js_parent_device_cb σ) :
    ∀ (l : List Device) (p : Device), ancestors p = l → ∀ (s : σ) (w : World),
      js_parent_loop cb p false false s w = spec_walk cb (p :: l) s w := by
  intro l
  induction l with
  | nil =>
    intro p hp s w
    rcases p with ⟨path, name, par⟩
    cases par with
    | some q => simp [ancestors] at hp
    | none =>
      unfold js_parent_loop
      simp only [spec_walk]
      cases hcb : cb (.mk path name none) s w with
      | aborted w' => simp
      | done a w' =>
        rcases a with ⟨r, s'⟩
        cases r <;> simp
  | cons a l ih =>
    intro p hp s w
    rcases p with ⟨path, name, par⟩
    cases par with
    | none => simp [ancestors] at hp
    | some q =>
      simp [ancestors] at hp
      obtain ⟨hq, hl⟩ := hp
      subst hq
      unfold js_parent_loop
      rw [spec_walk]
      cases hcb : cb (.mk path name (some q)) s w with
      | aborted w' => simp
      | done b w' =>
        rcases b with ⟨r, s'⟩
        cases r
        · simp
          exact ih q hl s' w'
        · simp [js_parent_loop_stop]
        · simp [js_parent_loop_stop]

theorem js_entry_loop_eq {σ : Type} (cb : handle_js_parent_device_cb σ) :
    ∀ (devices : List (Option Device)) (s : σ) (w : World),
      js_entry_loop cb devices false s w = spec_enumerate cb (js_devices devices) s w := by
  intro devices
  induction devices with
  | nil => intro s w; simp [js_entry_loop, js_devices, spec_enumerate]
  | cons e rest ih =>
    intro s w
    cases e with
    | none =>
      simp only [js_entry_loop, js_devices, List.filterMap_cons, id] at ih ⊢
      simpa using ih s w
    | some dev =>
      by_cases hjs : starts_with_js (udev_device_get_sysname dev) = true
      · have hfil : js_devices (some dev :: rest) = dev :: js_devices rest := by
          simp [js_devices, hjs]
        rw [hfil, js_entry_loop, sysname_is_js_eq, hjs, spec_enumerate, ancestors_eq dev]
        cases hp : udev_device_get_parent dev with
        | none =>
          simp [spec_walk]
          exact ih s w
        | some parent =>
          simp only [if_true]
          rw [js_parent_loop_eq cb (ancestors parent) parent rfl s w]
          cases hw : spec_walk cb (parent :: ancestors parent) s w with
          | aborted w' => simp
          | done b w' =>
            rcases b with ⟨c, s'⟩
            cases c
            · simp
              exact ih s' w'
            · simp
      · have hfil : js_devices (some dev :: rest) = js_devices rest := by
          simp [js_devices, hjs]
        rw [hfil, js_entry_loop, sysname_is_js_eq]
        simp [hjs]
        exact ih s w

/-! ## Callbacks with a constant answer, recorded -/

theorem spec_walk_record_ignore {σ : Type} (cb : handle_js_parent_device_cb σ)
    (hcb : ∀ d s w, ∃ s' w', cb d s w = .done (IGNORE_PARENT, s') w') :
    ∀ (l : List Device) (s : σ) (tr : List Device) (w : World),
      ∃ s' w', spec_walk (record cb) l (s, tr) w = .done (false, (s', tr ++ l)) w' := by
  intro l
  induction l with
  | nil => intro s tr w; exact ⟨s, w, by simp [spec_walk]⟩
  | cons a l ih =>
    intro s tr w
    obtain ⟨s1, w1, h1⟩ := hcb a s w
    obtain ⟨s2, w2, h2⟩ := ih s1 (tr ++ [a]) w1
    refine ⟨s2, w2, ?_⟩
    simp [spec_walk, record, h1, h2]

theorem spec_enumerate_record_ignore {σ : Type} (cb : handle_js_parent_device_cb σ)
    (hcb : ∀ d s w, ∃ s' w', cb d s w = .done (IGNORE_PARENT, s') w') :
    ∀ (ds : List Device) (s : σ) (tr : List Device) (w : World),
      ∃ s' w', spec_enumerate (record cb) ds (s, tr) w
        = .done (s', tr ++ (ds.map ancestors).flatten) w' := by
  intro ds
  induction ds with
  | nil => intro s tr w; exact ⟨s, w, by simp [spec_enumerate]⟩
  | cons d ds ih =>
    intro s tr w
    obtain ⟨s1, w1, h1⟩ := spec_walk_record_ignore cb hcb (ancestors d) s tr w
    obtain ⟨s2, w2, h2⟩ := ih s1 (tr ++ ancestors d) w1
    refine ⟨s2, w2, ?_⟩
    simp [spec_enumerate, h1, h2]

theorem spec_walk_record_next {σ : Type} (cb : handle_js_parent_device_cb σ)
    (hcb : ∀ d s w, ∃ s' w', cb d s w = .done (NEXT_DEVICE, s') w')
    (l : List Device) (s : σ) (tr : List Device) (w : World) :
    ∃ s' w', spec_walk (record cb) l (s, tr) w = .done (false, (s', tr ++ l.take 1)) w' := by
  cases l with
  | nil => exact ⟨s, w, by simp [spec_walk]⟩
  | cons a l =>
    obtain ⟨s1, w1, h1⟩ := hcb a s w
    exact ⟨s1, w1, by simp [spec_walk, record, h1]⟩

theorem spec_enumerate_record_next {σ : Type} (cb : handle_js_parent_device_cb σ)
    (hcb : ∀ d s w, ∃ s' w', cb d s w = .done (NEXT_DEVICE, s') w') :
    ∀ (ds : List Device) (s : σ) (tr : List Device) (w : World),
      ∃ s' w', spec_enumerate (record cb) ds (s, tr) w
        = .done (s', tr ++ (ds.map (fun d => (ancestors d).take 1)).flatten) w' := by
  intro ds
  induction ds with
  | nil => intro s tr w; exact ⟨s, w, by simp [spec_enumerate]⟩
  | cons d ds ih =>
    intro s tr w
    obtain ⟨s1, w1, h1⟩ := spec_walk_record_next cb hcb (ancestors d) s tr w
    obtain ⟨s2, w2, h2⟩ := ih s1 (tr ++ (ancestors d).take 1) w1
    refine ⟨s2, w2, ?_⟩
    simp [spec_enumerate, h1, h2]

theorem spec_enumerate_record_cancel {σ : Type} (cb : handle_js_parent_device_cb σ)
    (hcb : ∀ d s w, ∃ s' w', cb d s w = .done (CANCEL_ENUMERATION, s') w') :
    ∀ (ds : List Device) (s : σ) (tr : List Device) (w : World),
      ∃ s' w', spec_enumerate (record cb) ds (s, tr) w
        = .done (s', tr ++ ((ds.map (fun d => (ancestors d).take 1)).flatten).take 1) w' := by
  intro ds
  induction ds with
  | nil => intro s tr w; exact ⟨s, w, by simp [spec_enumerate]⟩
  | cons d ds ih =>
    intro s tr w
    cases hd : ancestors d with
    | nil =>
      obtain ⟨s2, w2, h2⟩ := ih s tr w
      exact ⟨s2, w2, by simp [spec_enumerate, spec_walk, hd, h2]⟩
    | cons a l =>
      obtain ⟨s1, w1, h1⟩ := hcb a s w
      exact ⟨s1, w1, by simp [spec_enumerate, spec_walk, record, hd, h1]⟩

/-! ## The classifier against the specification -/

theorem spec_walk_check_for_xpad (w : World) :
    ∀ (l : List Device) (b : Bool),
      spec_walk check_for_xpad_cb l b w
        = .done (l.any (fun a => decide (udev_device_get_driver w a = some "xpad")),
            b || l.any (fun a => decide (udev_device_get_driver w a = some "xpad"))) w := by
  intro l
  induction l with
  | nil => intro b; simp [spec_walk]
  | cons a l ih =>
    intro b
    cases hd : udev_device_get_driver w a with
    | none => simp [spec_walk, check_for_xpad_cb, hd, ih]
    | some drv =>
      by_cases hx : drv = "xpad"
      · simp [spec_walk, check_for_xpad_cb, hd, hx]
      · simp [spec_walk, check_for_xpad_cb, hd, hx, ih]

theorem spec_enumerate_check_for_xpad (w : World) :
    ∀ (ds : List Device) (b : Bool),
      spec_enumerate check_for_xpad_cb ds b w
        = .done (b || ds.any (fun d => (ancestors d).any
            (fun a => decide (udev_device_get_driver w a = some "xpad")))) w := by
  intro ds
  induction ds with
  | nil => intro b; simp [spec_enumerate]
  | cons d ds ih =>
    intro b
    rw [spec_enumerate, spec_walk_check_for_xpad]
    cases hany : (ancestors d).any (fun a => decide (udev_device_get_driver w a = some "xpad"))
    · simp only [ih, List.any_cons, hany, Bool.false_or, Bool.or_false]
    · simp only [List.any_cons, hany, Bool.true_or, Bool.or_true]

theorem check_if_xpad_active_eq (env : Env) (w : World) :
    check_if_xpad_active env w
      = .done (match env.scan "input" with
          | none => false
          | some devices => (js_devices devices).any (fun d => (ancestors d).any
              (fun a => decide (udev_device_get_driver w a = some "xpad")))) w := by
  unfold check_if_xpad_active enumerate_js_parent_devices
  cases env.scan "input" with
  | none => rfl
  | some devices =>
    simp only [js_entry_loop_eq, spec_enumerate_check_for_xpad, Bool.false_or]

/-! ## The two passes -/

theorem write_str_to_file_eq (env : Env) (path value : String) (w : World) :
    write_str_to_file env path value w
      = if env.sysfs_open path w then .done () (written env path value w) else .aborted w := by
  rfl

theorem spec_walk_deactivate (env : Env) :
    ∀ (l : List Device) (w : World),
      spec_walk (deactivate_device_if_hid_generic_cb env) l () w
        = match unbind_target_in w l with
          | none => .done (false, ()) w
          | some name =>
            if env.sysfs_open SYSFS_HID_GENERIC_UNBIND w then
              .done (false, ()) (written env SYSFS_HID_GENERIC_UNBIND name w)
            else .aborted w := by
  intro l
  induction l with
  | nil => intro w; simp [spec_walk, unbind_target_in]
  | cons a l ih =>
    intro w
    have ih' := ih w
    simp only [unbind_target_in] at ih' ⊢
    cases hd : udev_device_get_driver w a with
    | none =>
      simp [spec_walk, deactivate_device_if_hid_generic_cb, hd, is_unbind_target, ih']
    | some drv =>
      by_cases hx : drv = "hid-generic"
      · subst hx
        cases hn : udev_device_get_sysname a with
        | none =>
          simp [spec_walk, deactivate_device_if_hid_generic_cb, hd, hn, is_unbind_target, ih']
        | some name =>
          by_cases ho : env.sysfs_open SYSFS_HID_GENERIC_UNBIND w = true
          · simp [spec_walk, deactivate_device_if_hid_generic_cb, hd, hn, is_unbind_target,
              write_str_to_file_eq, ho]
          · simp [spec_walk, deactivate_device_if_hid_generic_cb, hd, hn, is_unbind_target,
              write_str_to_file_eq, ho]
      · simp [spec_walk, deactivate_device_if_hid_generic_cb, hd, hx, is_unbind_target, ih']

theorem spec_enumerate_deactivate (env : Env) (ho : opens env SYSFS_HID_GENERIC_UNBIND) :
    ∀ (ds : List Device) (w : World),
      spec_enumerate (deactivate_device_if_hid_generic_cb env) ds () w
        = .done () (ds.foldl (unbind_step env) w) := by
  intro ds
  induction ds with
  | nil => intro w; simp [spec_enumerate]
  | cons d ds ih =>
    intro w
    rw [spec_enumerate, spec_walk_deactivate, List.foldl_cons, ← ih]
    unfold unbind_step nearest_unbind_target
    cases unbind_target_in w (ancestors d) with
    | none => simp
    | some name => simp [ho w]

theorem hid_entry_loop_eq (env : Env) (ho : opens env SYSFS_HID_GENERIC_BIND) :
    ∀ (devices : List (Option Device)) (w : World),
      hid_entry_loop env devices w = .done () (devices.foldl (bind_step env) w) := by
  intro devices
  induction devices with
  | nil => intro w; simp [hid_entry_loop]
  | cons e rest ih =>
    intro w
    cases e with
    | none => simp [hid_entry_loop, bind_step, bind_target, ih]
    | some dev =>
      cases hd : udev_device_get_driver w dev with
      | some drv => simp [hid_entry_loop, bind_step, bind_target, hd, ih]
      | none =>
        cases hn : udev_device_get_sysname dev with
        | none => simp [hid_entry_loop, bind_step, bind_target, hd, hn, ih]
        | some name =>
          simp [hid_entry_loop, bind_step, bind_target, hd, hn, ih, write_str_to_file_eq, ho w]

theorem is_unbind_target_congr (w w' : World) (h : w'.drivers = w.drivers) :
    is_unbind_target w' = is_unbind_target w := by
  funext a
  simp [is_unbind_target, udev_device_get_driver, h]

theorem nearest_unbind_target_congr (w w' : World) (h : w'.drivers = w.drivers) :
    nearest_unbind_target w' = nearest_unbind_target w := by
  funext d
  simp [nearest_unbind_target, unbind_target_in, is_unbind_target_congr w w' h]

theorem bind_target_congr (w w' : World) (h : w'.drivers = w.drivers) :
    bind_target w' = bind_target w := by
  funext e
  cases e with
  | none => rfl
  | some dev => simp [bind_target, udev_device_get_driver, h]

/-- With bindings that the writes leave as they are, the disable pass only appends the
unbinds of the targets read from the initial state. -/
theorem foldl_unbind_step_static (env : Env) (hk : keeps_bindings env SYSFS_HID_GENERIC_UNBIND) :
    ∀ (ds : List Device) (w : World),
      ds.foldl (unbind_step env) w
        = { w with actions := w.actions ++
            (ds.filterMap (nearest_unbind_target w)).map (Prod.mk SYSFS_HID_GENERIC_UNBIND) } := by
  intro ds
  induction ds with
  | nil => intro w; simp
  | cons d ds ih =>
    intro w
    rw [List.foldl_cons, ih]
    unfold unbind_step
    cases hn : nearest_unbind_target w d with
    | none => simp [hn]
    | some name =>
      have hw : (written env SYSFS_HID_GENERIC_UNBIND name w).drivers = w.drivers := by
        simp [written, hk name w.drivers]
      have ht : nearest_unbind_target (written env SYSFS_HID_GENERIC_UNBIND name w)
          = nearest_unbind_target w := nearest_unbind_target_congr _ _ hw
      simp [hn, ht]
      simp [written, hk name w.drivers]

theorem foldl_bind_step_static (env : Env) (hk : keeps_bindings env SYSFS_HID_GENERIC_BIND) :
    ∀ (devices : List (Option Device)) (w : World),
      devices.foldl (bind_step env) w
        = { w with actions := w.actions ++
            (devices.filterMap (bind_target w)).map (Prod.mk SYSFS_HID_GENERIC_BIND) } := by
  intro devices
  induction devices with
  | nil => intro w; simp
  | cons e rest ih =>
    intro w
    rw [List.foldl_cons, ih]
    unfold bind_step
    cases hn : bind_target w e with
    | none => simp [hn]
    | some name =>
      have hw : (written env SYSFS_HID_GENERIC_BIND name w).drivers = w.drivers := by
        simp [written, hk name w.drivers]
      have ht : bind_target (written env SYSFS_HID_GENERIC_BIND name w) = bind_target w :=
        bind_target_congr _ _ hw
      simp [hn, ht]
      simp [written, hk name w.drivers]

/-! ## Actions of the passes, and aborted passes -/

theorem spec_enumerate_deactivate_actions (env : Env) :
    ∀ (ds : List Device) (w : World),
      ∃ extra, (spec_enumerate (deactivate_device_if_hid_generic_cb env) ds () w).world.actions
          = w.actions ++ extra ∧ ∀ a ∈ extra, a.1 = SYSFS_HID_GENERIC_UNBIND := by
  intro ds
  induction ds with
  | nil => intro w; exact ⟨[], by simp [spec_enumerate, Res.world]⟩
  | cons d ds ih =>
    intro w
    rw [spec_enumerate, spec_walk_deactivate]
    cases unbind_target_in w (ancestors d) with
    | none => simpa using ih w
    | some name =>
      by_cases ho : env.sysfs_open SYSFS_HID_GENERIC_UNBIND w = true
      · obtain ⟨extra, h1, h2⟩ := ih (written env SYSFS_HID_GENERIC_UNBIND name w)
        refine ⟨(SYSFS_HID_GENERIC_UNBIND, name) :: extra, ?_, ?_⟩
        · simp only [ho, if_true]
          rw [h1]
          simp [written]
        · intro a ha
          rcases List.mem_cons.mp ha with h | h
          · rw [h]
          · exact h2 a h
      · exact ⟨[], by simp [ho, Res.world]⟩

theorem hid_entry_loop_actions (env : Env) :
    ∀ (devices : List (Option Device)) (w : World),
      ∃ extra, (hid_entry_loop env devices w).world.actions = w.actions ++ extra ∧
        ∀ a ∈ extra, a.1 = SYSFS_HID_GENERIC_BIND := by
  intro devices
  induction devices with
  | nil => intro w; exact ⟨[], by simp [hid_entry_loop, Res.world]⟩
  | cons e rest ih =>
    intro w
    cases e with
    | none => simpa [hid_entry_loop] using ih w
    | some dev =>
      cases hd : udev_device_get_driver w dev with
      | some drv => simpa [hid_entry_loop, hd] using ih w
      | none =>
        cases hn : udev_device_get_sysname dev with
        | none => simpa [hid_entry_loop, hd, hn] using ih w
        | some name =>
          by_cases ho : env.sysfs_open SYSFS_HID_GENERIC_BIND w = true
          · obtain ⟨extra, h1, h2⟩ := ih (written env SYSFS_HID_GENERIC_BIND name w)
            refine ⟨(SYSFS_HID_GENERIC_BIND, name) :: extra, ?_, ?_⟩
            · simp only [hid_entry_loop, hd, hn, write_str_to_file_eq, ho, if_true]
              rw [h1]
              simp [written]
            · intro a ha
              rcases List.mem_cons.mp ha with h | h
              · rw [h]
              · exact h2 a h
          · exact ⟨[], by simp [hid_entry_loop, hd, hn, write_str_to_file_eq, ho, Res.world]⟩

theorem hid_entry_loop_append (env : Env) (rest : List (Option Device)) :
    ∀ (pre : List (Option Device)) (w : World),
      hid_entry_loop env (pre ++ rest) w
        = match hid_entry_loop env pre w with
          | .aborted w' => .aborted w'
          | .done _ w1 => hid_entry_loop env rest w1 := by
  intro pre
  induction pre with
  | nil => intro w; simp [hid_entry_loop]
  | cons e pre ih =>
    intro w
    cases e with
    | none => simpa [hid_entry_loop] using ih w
    | some dev =>
      cases hd : udev_device_get_driver w dev with
      | some drv => simpa [hid_entry_loop, hd] using ih w
      | none =>
        cases hn : udev_device_get_sysname dev with
        | none => simpa [hid_entry_loop, hd, hn] using ih w
        | some name =>
          by_cases ho : env.sysfs_open SYSFS_HID_GENERIC_BIND w = true
          · simpa [hid_entry_loop, hd, hn, write_str_to_file_eq, ho] using ih _
          · simp [hid_entry_loop, hd, hn, write_str_to_file_eq, ho]

theorem spec_enumerate_deactivate_append (env : Env) (rest : List Device) :
    ∀ (pre : List Device) (w : World),
      spec_enumerate (deactivate_device_if_hid_generic_cb env) (pre ++ rest) () w
        = match spec_enumerate (deactivate_device_if_hid_generic_cb env) pre () w with
          | .aborted w' => .aborted w'
          | .done _ w1 => spec_enumerate (deactivate_device_if_hid_generic_cb env) rest () w1 := by
  intro pre
  induction pre with
  | nil => intro w; simp [spec_enumerate]
  | cons d pre ih =>
    intro w
    rw [List.cons_append, spec_enumerate, spec_enumerate, spec_walk_deactivate]
    cases unbind_target_in w (ancestors d) with
    | none => simpa using ih w
    | some name =>
      by_cases ho : env.sysfs_open SYSFS_HID_GENERIC_UNBIND w = true
      · simpa [ho] using ih _
      · simp [ho]

theorem deactivate_eq_spec (env : Env) (w : World) :
    deactivate_hid_generic_js_devices env w
      = match env.scan "input" with
        | none => .done () w
        | some devices =>
          spec_enumerate (deactivate_device_if_hid_generic_cb env) (js_devices devices) () w := by
  unfold deactivate_hid_generic_js_devices enumerate_js_parent_devices
  cases env.scan "input" with
  | none => rfl
  | some devices => simp only [js_entry_loop_eq]

theorem deactivate_actions (env : Env) (w : World) :
    ∃ extra, (deactivate_hid_generic_js_devices env w).world.actions = w.actions ++ extra ∧
      ∀ a ∈ extra, a.1 = SYSFS_HID_GENERIC_UNBIND := by
  rw [deactivate_eq_spec]
  cases env.scan "input" with
  | none => exact ⟨[], by simp [Res.world]⟩
  | some devices => exact spec_enumerate_deactivate_actions env (js_devices devices) w

theorem activate_actions (env : Env) (w : World) :
    ∃ extra, (activate_hid_generic_js_devices env w).world.actions = w.actions ++ extra ∧
      ∀ a ∈ extra, a.1 = SYSFS_HID_GENERIC_BIND := by
  unfold activate_hid_generic_js_devices
  cases env.scan "hid" with
  | none => exact ⟨[], by simp [Res.world]⟩
  | some devices => exact hid_entry_loop_actions env devices w

theorem deactivate_done (env : Env) (w : World) (ho : opens env SYSFS_HID_GENERIC_UNBIND) :
    ∃ w2, deactivate_hid_generic_js_devices env w = .done () w2 := by
  rw [deactivate_eq_spec]
  cases env.scan "input" with
  | none => exact ⟨w, rfl⟩
  | some devices => exact ⟨_, spec_enumerate_deactivate env ho (js_devices devices) w⟩

theorem activate_done (env : Env) (w : World) (ho : opens env SYSFS_HID_GENERIC_BIND) :
    ∃ w2, activate_hid_generic_js_devices env w = .done () w2 := by
  unfold activate_hid_generic_js_devices
  cases env.scan "hid" with
  | none => exact ⟨w, rfl⟩
  | some devices => exact ⟨_, hid_entry_loop_eq env ho devices w⟩

theorem main_eq (env : Env) (w : World) (hu : env.udev_new = true) (b : Bool)
    (hb : check_if_xpad_active env w = .done b w) :
    main env w
      = match (if b = true then
            deactivate_hid_generic_js_devices env
              (printf LINE_XPAD_ACTIVE w)
          else
            activate_hid_generic_js_devices env
              (printf LINE_NO_XPAD w)) with
        | .aborted w' => .aborted w'
        | .done _ w2 => .done 0 w2 := by
  cases b <;> simp [main, hu, hb]

/-! ## Two runs on a simulated device tree -/

theorem opens_simulated (scan : String → Option (List (Option Device))) (path : String) :
    opens (simulated scan) path :=
  fun _ => rfl

theorem mem_known_of_input (scan : String → Option (List (Option Device)))
    (devices : List (Option Device)) (hscan : scan "input" = some devices) (d : Device)
    (hd : some d ∈ devices) : d ∈ known_devices scan := by
  simp only [known_devices, hscan, Option.getD_some, List.mem_flatten, List.mem_map,
    List.mem_filterMap, List.mem_append, id]
  exact ⟨d :: ancestors d, ⟨d, ⟨some d, Or.inl hd, rfl⟩, rfl⟩, List.mem_cons_self _ _⟩

theorem mem_known_of_input_ancestor (scan : String → Option (List (Option Device)))
    (devices : List (Option Device)) (hscan : scan "input" = some devices) (d a : Device)
    (hd : some d ∈ devices) (ha : a ∈ ancestors d) : a ∈ known_devices scan := by
  simp only [known_devices, hscan, Option.getD_some, List.mem_flatten, List.mem_map,
    List.mem_filterMap, List.mem_append, id]
  exact ⟨d :: ancestors d, ⟨d, ⟨some d, Or.inl hd, rfl⟩, rfl⟩, List.mem_cons_of_mem _ ha⟩

theorem mem_known_of_hid (scan : String → Option (List (Option Device)))
    (devices : List (Option Device)) (hscan : scan "hid" = some devices) (d : Device)
    (hd : some d ∈ devices) : d ∈ known_devices scan := by
  simp only [known_devices, hscan, Option.getD_some, List.mem_flatten, List.mem_map,
    List.mem_filterMap, List.mem_append, id]
  exact ⟨d :: ancestors d, ⟨d, ⟨some d, Or.inr hd, rfl⟩, rfl⟩, List.mem_cons_self _ _⟩

theorem is_named_of_mem (scan : String → Option (List (Option Device))) (d : Device)
    (name : String) (hd : d ∈ known_devices scan) (hn : udev_device_get_sysname d = some name) :
    is_named scan name d.syspath = true := by
  simp only [is_named, List.any_eq_true, Bool.and_eq_true, decide_eq_true_eq]
  exact ⟨d, hd, rfl, hn⟩

theorem mem_js_devices (devices : List (Option Device)) (d : Device)
    (hd : d ∈ js_devices devices) : some d ∈ devices := by
  simp only [js_devices, List.mem_filter, List.mem_filterMap, id] at hd
  obtain ⟨⟨e, he, hed⟩, _⟩ := hd
  rw [← hed]
  exact he

theorem simulated_unbind_drivers (scan : String → Option (List (Option Device)))
    (name : String) (w : World) (p : String) :
    (written (simulated scan) SYSFS_HID_GENERIC_UNBIND name w).drivers p
      = if is_named scan name p && decide (w.drivers p = some "hid-generic") then none
        else w.drivers p := by
  simp [written, simulated, simulated_write]

theorem simulated_bind_drivers (scan : String → Option (List (Option Device)))
    (name : String) (w : World) (p : String) :
    (written (simulated scan) SYSFS_HID_GENERIC_BIND name w).drivers p
      = if is_named scan name p && decide (w.drivers p = none) then some "hid-generic"
        else w.drivers p := by
  have hne : SYSFS_HID_GENERIC_BIND ≠ SYSFS_HID_GENERIC_UNBIND := by decide
  simp [written, simulated, simulated_write, hne]

theorem unbound_from_refl (w : World) : unbound_from w w :=
  fun _ => Or.inl rfl

theorem unbound_from_trans (w1 w2 w3 : World) (h12 : unbound_from w1 w2)
    (h23 : unbound_from w2 w3) : unbound_from w1 w3 := by
  intro p
  rcases h12 p with h | ⟨h, h'⟩
  · rcases h23 p with g | ⟨g, g'⟩
    · exact Or.inl (g.trans h)
    · exact Or.inr ⟨h ▸ g, g'⟩
  · rcases h23 p with g | ⟨g, g'⟩
    · exact Or.inr ⟨h, g.trans h'⟩
    · exact Or.inr ⟨h, g'⟩

theorem unbound_from_step (scan : String → Option (List (Option Device))) (w : World)
    (d : Device) : unbound_from w (unbind_step (simulated scan) w d) := by
  unfold unbind_step
  cases nearest_unbind_target w d with
  | none => exact unbound_from_refl w
  | some name =>
    intro p
    rw [simulated_unbind_drivers]
    by_cases h : (is_named scan name p && decide (w.drivers p = some "hid-generic")) = true
    · rw [if_pos h]
      simp only [Bool.and_eq_true, decide_eq_true_eq] at h
      exact Or.inr ⟨h.2, rfl⟩
    · rw [if_neg h]
      exact Or.inl rfl

theorem unbound_from_foldl (scan : String → Option (List (Option Device))) :
    ∀ (ds : List Device) (w : World),
      unbound_from w (ds.foldl (unbind_step (simulated scan)) w) := by
  intro ds
  induction ds with
  | nil => intro w; exact unbound_from_refl w
  | cons d ds ih =>
    intro w
    exact unbound_from_trans _ _ _ (unbound_from_step scan w d) (ih _)

theorem is_unbind_target_of_unbound_from (w w' : World) (h : unbound_from w w') (a : Device)
    (ha : is_unbind_target w' a = true) : is_unbind_target w a = true := by
  simp only [is_unbind_target, udev_device_get_driver, Bool.and_eq_true,
    decide_eq_true_eq] at ha ⊢
  refine ⟨?_, ha.2⟩
  rcases h a.syspath with g | ⟨_, g'⟩
  · rw [← g]; exact ha.1
  · rw [g'] at ha; exact absurd ha.1 (by simp)

theorem xpad_of_unbound_from (w w' : World) (h : unbound_from w w') (p : String) :
    w'.drivers p = some "xpad" ↔ w.drivers p = some "xpad" := by
  rcases h p with g | ⟨g, g'⟩
  · rw [g]
  · rw [g, g']
    constructor
    · intro h1; exact absurd h1 (by simp)
    · intro h1
      have : ("hid-generic" : String) = "xpad" := Option.some.inj h1
      exact absurd this (by decide)

theorem check_if_xpad_active_congr (env : Env) (w w' : World)
    (h : ∀ p, w'.drivers p = some "xpad" ↔ w.drivers p = some "xpad") (b : Bool)
    (hb : check_if_xpad_active env w = .done b w) :
    check_if_xpad_active env w' = .done b w' := by
  rw [check_if_xpad_active_eq] at hb ⊢
  have hf : (fun a => decide (udev_device_get_driver w' a = some "xpad"))
      = (fun a => decide (udev_device_get_driver w a = some "xpad")) := by
    funext a
    simp only [udev_device_get_driver, h a.syspath]
  rw [hf]
  injection hb with hb1
  rw [hb1]

theorem filter_target_eq_nil_of_unbound_from (w w' : World) (h : unbound_from w w')
    (l : List Device) (hl : l.filter (is_unbind_target w) = []) :
    l.filter (is_unbind_target w') = [] := by
  rw [List.filter_eq_nil_iff] at hl ⊢
  intro a ha ht
  exact hl a ha (is_unbind_target_of_unbound_from w w' h a ht)

theorem filter_target_length_of_unbound_from (w w' : World) (h : unbound_from w w') :
    ∀ l : List Device, (l.filter (is_unbind_target w')).length
      ≤ (l.filter (is_unbind_target w)).length := by
  intro l
  induction l with
  | nil => simp
  | cons a l ih =>
    by_cases ht' : is_unbind_target w' a = true
    · have ht := is_unbind_target_of_unbound_from w w' h a ht'
      simp only [List.filter_cons, ht', ht, if_true, List.length_cons]
      omega
    · simp only [Bool.not_eq_true] at ht'
      by_cases ht : is_unbind_target w a = true
      · simp [List.filter_cons, ht', ht]
        omega
      · simp only [Bool.not_eq_true] at ht
        simpa [List.filter_cons, ht', ht] using ih

theorem nearest_unbind_target_eq_none (w : World) (d : Device)
    (h : (ancestors d).filter (is_unbind_target w) = []) :
    nearest_unbind_target w d = none := by
  rw [List.filter_eq_nil_iff] at h
  have hf : (ancestors d).find? (is_unbind_target w) = none := by
    rw [List.find?_eq_none]
    exact h
  simp [nearest_unbind_target, unbind_target_in, hf]

theorem no_target_after_step (scan : String → Option (List (Option Device)))
    (devices : List (Option Device)) (hscan : scan "input" = some devices) (w : World)
    (d : Device) (hd : some d ∈ devices)
    (hc : ((ancestors d).filter (is_unbind_target w)).length ≤ 1) :
    (ancestors d).filter (is_unbind_target (unbind_step (simulated scan) w d)) = [] := by
  cases hf : (ancestors d).find? (is_unbind_target w) with
  | none =>
    have hnil : (ancestors d).filter (is_unbind_target w) = [] := by
      rw [List.filter_eq_nil_iff]
      exact List.find?_eq_none.mp hf
    have hn : nearest_unbind_target w d = none := nearest_unbind_target_eq_none w d hnil
    simp only [unbind_step, hn]
    exact hnil
  | some a =>
    have hmem : a ∈ ancestors d := List.mem_of_find?_eq_some hf
    have hta : is_unbind_target w a = true := List.find?_some hf
    have hta' := hta
    simp only [is_unbind_target, udev_device_get_driver, Bool.and_eq_true,
      decide_eq_true_eq] at hta'
    obtain ⟨hdrv, hsome⟩ := hta'
    obtain ⟨name, hname⟩ := Option.isSome_iff_exists.mp hsome
    have hn : nearest_unbind_target w d = some name := by
      simp [nearest_unbind_target, unbind_target_in, hf, hname]
    have hstep : unbind_step (simulated scan) w d
        = written (simulated scan) SYSFS_HID_GENERIC_UNBIND name w := by
      simp only [unbind_step, hn]
    have hub : unbound_from w (unbind_step (simulated scan) w d) := unbound_from_step scan w d
    have hknown : a ∈ known_devices scan :=
      mem_known_of_input_ancestor scan devices hscan d a hd hmem
    have hgone : (unbind_step (simulated scan) w d).drivers a.syspath = none := by
      rw [hstep, simulated_unbind_drivers, is_named_of_mem scan a name hknown hname]
      simp [hdrv]
    rw [List.filter_eq_nil_iff]
    intro a' ha' ht'
    have ht : is_unbind_target w a' = true :=
      is_unbind_target_of_unbound_from w _ hub a' ht'
    have h1 : a ∈ (ancestors d).filter (is_unbind_target w) := List.mem_filter.mpr ⟨hmem, hta⟩
    have h2 : a' ∈ (ancestors d).filter (is_unbind_target w) := List.mem_filter.mpr ⟨ha', ht⟩
    have heq : a' = a := by
      rcases hl : (ancestors d).filter (is_unbind_target w) with _ | ⟨x, _ | ⟨y, t⟩⟩
      · rw [hl] at h1; simp at h1
      · rw [hl] at h1 h2
        simp only [List.mem_singleton] at h1 h2
        rw [h1, h2]
      · rw [hl] at hc; simp at hc
    subst heq
    simp only [is_unbind_target, udev_device_get_driver, Bool.and_eq_true,
      decide_eq_true_eq] at ht'
    rw [hgone] at ht'
    exact absurd ht'.1 (by simp)

theorem foldl_unbind_step_no_targets (scan : String → Option (List (Option Device)))
    (devices : List (Option Device)) (hscan : scan "input" = some devices) :
    ∀ (ds : List Device) (w : World), (∀ d ∈ ds, some d ∈ devices) →
      (∀ d ∈ ds, ((ancestors d).filter (is_unbind_target w)).length ≤ 1) →
      ∀ d ∈ ds, (ancestors d).filter
        (is_unbind_target (ds.foldl (unbind_step (simulated scan)) w)) = [] := by
  intro ds
  induction ds with
  | nil => intro w _ _ d hd; simp at hd
  | cons d0 ds ih =>
    intro w hin hc d hd
    rw [List.foldl_cons]
    have hstep : unbound_from w (unbind_step (simulated scan) w d0) :=
      unbound_from_step scan w d0
    rcases List.mem_cons.mp hd with h | h
    · subst h
      exact filter_target_eq_nil_of_unbound_from _ _ (unbound_from_foldl scan ds _) _
        (no_target_after_step scan devices hscan w d (hin d (List.mem_cons_self _ _))
          (hc d (List.mem_cons_self _ _)))
    · refine ih _ (fun x hx => hin x (List.mem_cons_of_mem _ hx)) (fun x hx => ?_) d h
      exact Nat.le_trans (filter_target_length_of_unbound_from w _ hstep (ancestors x))
        (hc x (List.mem_cons_of_mem _ hx))

theorem foldl_unbind_step_idle (env : Env) :
    ∀ (ds : List Device) (v : World), (∀ d ∈ ds, nearest_unbind_target v d = none) →
      ds.foldl (unbind_step env) v = v := by
  intro ds
  induction ds with
  | nil => intro v _; rfl
  | cons d ds ih =>
    intro v h
    have hd : unbind_step env v d = v := by
      simp only [unbind_step, h d (List.mem_cons_self _ _)]
    rw [List.foldl_cons, hd]
    exact ih v (fun x hx => h x (List.mem_cons_of_mem _ hx))

theorem bound_from_refl (w : World) : bound_from w w :=
  fun _ => Or.inl rfl

theorem bound_from_trans (w1 w2 w3 : World) (h12 : bound_from w1 w2)
    (h23 : bound_from w2 w3) : bound_from w1 w3 := by
  intro p
  rcases h12 p with h | ⟨h, h'⟩
  · rcases h23 p with g | ⟨g, g'⟩
    · exact Or.inl (g.trans h)
    · exact Or.inr ⟨h ▸ g, g'⟩
  · rcases h23 p with g | ⟨g, g'⟩
    · exact Or.inr ⟨h, g.trans h'⟩
    · rw [h'] at g; exact absurd g (by simp)

theorem bound_from_step (scan : String → Option (List (Option Device))) (w : World)
    (e : Option Device) : bound_from w (bind_step (simulated scan) w e) := by
  unfold bind_step
  cases bind_target w e with
  | none => exact bound_from_refl w
  | some name =>
    intro p
    rw [simulated_bind_drivers]
    by_cases h : (is_named scan name p && decide (w.drivers p = none)) = true
    · rw [if_pos h]
      simp only [Bool.and_eq_true, decide_eq_true_eq] at h
      exact Or.inr ⟨h.2, rfl⟩
    · rw [if_neg h]
      exact Or.inl rfl

theorem bound_from_foldl (scan : String → Option (List (Option Device))) :
    ∀ (es : List (Option Device)) (w : World),
      bound_from w (es.foldl (bind_step (simulated scan)) w) := by
  intro es
  induction es with
  | nil => intro w; exact bound_from_refl w
  | cons e es ih =>
    intro w
    exact bound_from_trans _ _ _ (bound_from_step scan w e) (ih _)

theorem xpad_of_bound_from (w w' : World) (h : bound_from w w') (p : String) :
    w'.drivers p = some "xpad" ↔ w.drivers p = some "xpad" := by
  rcases h p with g | ⟨g, g'⟩
  · rw [g]
  · rw [g, g']
    constructor
    · intro h1
      have : ("hid-generic" : String) = "xpad" := Option.some.inj h1
      exact absurd this (by decide)
    · intro h1; exact absurd h1 (by simp)

theorem bind_target_none_of_bound_from (w w' : World) (h : bound_from w w')
    (e : Option Device) (he : bind_target w e = none) : bind_target w' e = none := by
  cases e with
  | none => rfl
  | some dev =>
    simp only [bind_target, udev_device_get_driver] at he ⊢
    by_cases hd : w.drivers dev.syspath = none
    · rw [if_pos hd] at he
      simp [he]
    · have hd' : w'.drivers dev.syspath ≠ none := by
        rcases h dev.syspath with g | ⟨g, _⟩
        · rw [g]; exact hd
        · exact absurd g hd
      rw [if_neg hd']

theorem no_bind_target_after_step (scan : String → Option (List (Option Device))) (w : World)
    (e : Option Device) (he : ∀ d, e = some d → d ∈ known_devices scan) :
    bind_target (bind_step (simulated scan) w e) e = none := by
  cases hb : bind_target w e with
  | none =>
    simp only [bind_step, hb]
  | some name =>
    cases e with
    | none => simp [bind_target] at hb
    | some dev =>
      simp only [bind_target, udev_device_get_driver] at hb
      by_cases hd : w.drivers dev.syspath = none
      · rw [if_pos hd] at hb
        have hne : (written (simulated scan) SYSFS_HID_GENERIC_BIND name w).drivers dev.syspath
            ≠ none := by
          rw [simulated_bind_drivers, is_named_of_mem scan dev name (he dev rfl) hb]
          simp [hd]
        have hstep : bind_step (simulated scan) w (some dev)
            = written (simulated scan) SYSFS_HID_GENERIC_BIND name w := by
          simp only [bind_step, bind_target, udev_device_get_driver, hd, if_true, hb]
        rw [hstep]
        simp only [bind_target, udev_device_get_driver]
        rw [if_neg hne]
      · rw [if_neg hd] at hb
        exact absurd hb (by simp)

theorem foldl_bind_step_no_targets (scan : String → Option (List (Option Device))) :
    ∀ (es : List (Option Device)) (w : World),
      (∀ d, some d ∈ es → d ∈ known_devices scan) →
      ∀ e ∈ es, bind_target (es.foldl (bind_step (simulated scan)) w) e = none := by
  intro es
  induction es with
  | nil => intro w _ e he; simp at he
  | cons e0 es ih =>
    intro w hk e he
    rw [List.foldl_cons]
    rcases List.mem_cons.mp he with h | h
    · subst h
      exact bind_target_none_of_bound_from _ _ (bound_from_foldl scan es _) e
        (no_bind_target_after_step scan w e
          (fun d hd => hk d (hd ▸ List.mem_cons_self _ _)))
    · exact ih _ (fun d hd => hk d (List.mem_cons_of_mem _ hd)) e h

theorem foldl_bind_step_idle (env : Env) :
    ∀ (es : List (Option Device)) (v : World), (∀ e ∈ es, bind_target v e = none) →
      es.foldl (bind_step env) v = v := by
  intro es
  induction es with
  | nil => intro v _; rfl
  | cons e es ih =>
    intro v h
    have hd : bind_step env v e = v := by
      simp only [bind_step, h e (List.mem_cons_self _ _)]
    rw [List.foldl_cons, hd]
    exact ih v (fun x hx => h x (List.mem_cons_of_mem _ hx))

theorem deactivate_eq_foldl (env : Env) (w : World) (devices : List (Option Device))
    (hscan : env.scan "input" = some devices) (ho : opens env SYSFS_HID_GENERIC_UNBIND) :
    deactivate_hid_generic_js_devices env w
      = .done () ((js_devices devices).foldl (unbind_step env) w) := by
  rw [deactivate_eq_spec]
  simp only [hscan, spec_enumerate_deactivate env ho]

theorem activate_eq_foldl (env : Env) (w : World) (devices : List (Option Device))
    (hscan : env.scan "hid" = some devices) (ho : opens env SYSFS_HID_GENERIC_BIND) :
    activate_hid_generic_js_devices env w = .done () (devices.foldl (bind_step env) w) := by
  unfold activate_hid_generic_js_devices
  simp only [hscan, hid_entry_loop_eq env ho]

theorem enable_run_twice (scan : String → Option (List (Option Device))) (w : World)
    (hb : check_if_xpad_active (simulated scan) w = .done false w) :
    ∃ w1 w2, main (simulated scan) w = .done 0 w1 ∧ main (simulated scan) w1 = .done 0 w2 ∧
      w2.drivers = w1.drivers ∧ w2.actions = w1.actions := by
  have hu : (simulated scan).udev_new = true := rfl
  cases hs : scan "hid" with
  | none =>
    have ha : ∀ v, activate_hid_generic_js_devices (simulated scan) v = .done () v := by
      intro v
      unfold activate_hid_generic_js_devices
      have : (simulated scan).scan "hid" = none := hs
      simp only [this]
    have hb1 := check_if_xpad_active_congr (simulated scan) w
      (printf LINE_NO_XPAD w)
      (fun _ => Iff.rfl) false hb
    refine ⟨printf LINE_NO_XPAD w, printf LINE_NO_XPAD (printf LINE_NO_XPAD w), ?_, ?_, rfl, rfl⟩
    · rw [main_eq _ w hu false hb]
      simp only [Bool.false_eq_true, if_false, ha]
    · rw [main_eq _ _ hu false hb1]
      simp only [Bool.false_eq_true, if_false, ha]
  | some es =>
    have hs' : (simulated scan).scan "hid" = some es := hs
    have ho := opens_simulated scan SYSFS_HID_GENERIC_BIND
    have hbf := bound_from_foldl scan es
      (printf LINE_NO_XPAD w)
    have hb1 := check_if_xpad_active_congr (simulated scan) w _
      (fun p => xpad_of_bound_from _ _ hbf p) false hb
    have hidle : es.foldl (bind_step (simulated scan))
        (printf LINE_NO_XPAD
          (es.foldl (bind_step (simulated scan))
            (printf LINE_NO_XPAD w)))
        = printf LINE_NO_XPAD
          (es.foldl (bind_step (simulated scan))
            (printf LINE_NO_XPAD w)) := by
      apply foldl_bind_step_idle
      intro e he
      rw [bind_target_congr (es.foldl (bind_step (simulated scan)) (printf LINE_NO_XPAD w))
        (printf LINE_NO_XPAD (es.foldl (bind_step (simulated scan)) (printf LINE_NO_XPAD w)))
        rfl]
      exact foldl_bind_step_no_targets scan es _
        (fun d hd => mem_known_of_hid scan es hs d hd) e he
    refine ⟨es.foldl (bind_step (simulated scan)) (printf LINE_NO_XPAD w),
      printf LINE_NO_XPAD (es.foldl (bind_step (simulated scan)) (printf LINE_NO_XPAD w)),
      ?_, ?_, rfl, rfl⟩
    · rw [main_eq _ w hu false hb]
      simp only [Bool.false_eq_true, if_false, activate_eq_foldl _ _ es hs' ho]
    · rw [main_eq _ _ hu false hb1]
      simp only [Bool.false_eq_true, if_false, activate_eq_foldl _ _ es hs' ho, hidle]

theorem disable_run_twice (scan : String → Option (List (Option Device))) (w : World)
    (hb : check_if_xpad_active (simulated scan) w = .done true w)
    (h : ∀ devices, scan "input" = some devices → ∀ d ∈ js_devices devices,
      ((ancestors d).filter (is_unbind_target w)).length ≤ 1) :
    ∃ w1 w2, main (simulated scan) w = .done 0 w1 ∧ main (simulated scan) w1 = .done 0 w2 ∧
      w2.drivers = w1.drivers ∧ w2.actions = w1.actions := by
  have hu : (simulated scan).udev_new = true := rfl
  cases hs : scan "input" with
  | none =>
    have hs' : (simulated scan).scan "input" = none := hs
    rw [check_if_xpad_active_eq, hs'] at hb
    simp at hb
  | some devices =>
    have hs' : (simulated scan).scan "input" = some devices := hs
    have ho := opens_simulated scan SYSFS_HID_GENERIC_UNBIND
    have huf := unbound_from_foldl scan (js_devices devices)
      (printf LINE_XPAD_ACTIVE w)
    have hb1 := check_if_xpad_active_congr (simulated scan) w _
      (fun p => xpad_of_unbound_from _ _ huf p) true hb
    have hidle : (js_devices devices).foldl (unbind_step (simulated scan))
        (printf LINE_XPAD_ACTIVE
          ((js_devices devices).foldl (unbind_step (simulated scan))
            (printf LINE_XPAD_ACTIVE w)))
        = printf LINE_XPAD_ACTIVE
          ((js_devices devices).foldl (unbind_step (simulated scan))
            (printf LINE_XPAD_ACTIVE w)) := by
      apply foldl_unbind_step_idle
      intro d hd
      rw [nearest_unbind_target_congr
        ((js_devices devices).foldl (unbind_step (simulated scan)) (printf LINE_XPAD_ACTIVE w))
        (printf LINE_XPAD_ACTIVE
          ((js_devices devices).foldl (unbind_step (simulated scan)) (printf LINE_XPAD_ACTIVE w)))
        rfl]
      apply nearest_unbind_target_eq_none
      refine foldl_unbind_step_no_targets scan devices hs (js_devices devices) _
        (fun x hx => mem_js_devices devices x hx) (fun x hx => ?_) d hd
      rw [is_unbind_target_congr w
        (printf LINE_XPAD_ACTIVE w) rfl]
      exact h devices hs x hx
    refine ⟨(js_devices devices).foldl (unbind_step (simulated scan)) (printf LINE_XPAD_ACTIVE w),
      printf LINE_XPAD_ACTIVE
        ((js_devices devices).foldl (unbind_step (simulated scan)) (printf LINE_XPAD_ACTIVE w)),
      ?_, ?_, rfl, rfl⟩
    · rw [main_eq _ w hu true hb]
      simp only [if_true, deactivate_eq_foldl _ _ devices hs' ho]
    · rw [main_eq _ _ hu true hb1]
      simp only [if_true, deactivate_eq_foldl _ _ devices hs' ho, hidle]

/-! ## The claims -/

/-- C1: when the scan of the input subsystem succeeds, `check_if_xpad_active` returns,
leaving the state as it is, and it returns true if and only if some device of the scan
has a sysname starting with `js` and an ancestor bound to `xpad`. -/
theorem check_if_xpad_active_iff (env : Env) (w : World) (devices : List (Option Device))
    (hscan : env.scan "input" = some devices) :
    ∃ b, check_if_xpad_active env w = .done b w ∧
      (b = true ↔ ∃ d, some d ∈ devices ∧
        (∃ s, udev_device_get_sysname d = some s ∧ s.toList.take 2 = ['j', 's']) ∧
        ∃ a ∈ ancestors d, udev_device_get_driver w a = some "xpad") := by
  refine ⟨_, check_if_xpad_active_eq env w, ?_⟩
  simp only [hscan, js_devices, List.any_eq_true, List.mem_filter, List.mem_filterMap, id,
    decide_eq_true_eq]
  constructor
  · rintro ⟨d, ⟨⟨e, he, hed⟩, hjs⟩, a, ha, hx⟩
    subst hed
    refine ⟨d, he, ?_, a, ha, hx⟩
    cases hn : udev_device_get_sysname d with
    | none => simp [hn, starts_with_js] at hjs
    | some n => exact ⟨n, rfl, by simpa [hn, starts_with_js] using hjs⟩
  · rintro ⟨d, he, ⟨n, hn, hjs⟩, a, ha, hx⟩
    exact ⟨d, ⟨⟨some d, he, rfl⟩, by simpa [hn, starts_with_js] using hjs⟩, a, ha, hx⟩

theorem check_if_xpad_active_iff_witness :
    (recorder scan_ABC).scan "input" = some [some js0] ∧
    ∃ b, check_if_xpad_active (recorder scan_ABC) (initial drivers_ABC)
        = .done b (initial drivers_ABC) ∧
      (b = true ↔ ∃ d, some d ∈ [some js0] ∧
        (∃ s, udev_device_get_sysname d = some s ∧ s.toList.take 2 = ['j', 's']) ∧
        ∃ a ∈ ancestors d, udev_device_get_driver (initial drivers_ABC) a = some "xpad") :=
  ⟨rfl, check_if_xpad_active_iff (recorder scan_ABC) (initial drivers_ABC) [some js0] rfl⟩

/-- C5: when the scan of the input subsystem fails, `check_if_xpad_active` returns false
and leaves the state as it is, whatever the driver bindings, and `main` then prints the
line of the enable pass and runs `activate_hid_generic_js_devices`. -/
theorem scan_failure_runs_enable_pass (env : Env) (w : World)
    (hscan : env.scan "input" = none) :
    check_if_xpad_active env w = .done false w ∧
    (env.udev_new = true →
      main env w = match activate_hid_generic_js_devices env
          (printf LINE_NO_XPAD w) with
        | .aborted w' => .aborted w'
        | .done _ w2 => .done 0 w2) := by
  have hc : check_if_xpad_active env w = .done false w := by
    rw [check_if_xpad_active_eq, hscan]
  refine ⟨hc, ?_⟩
  intro hu
  simp [main, hu, hc]

theorem scan_failure_runs_enable_pass_witness :
    (recorder scan_input_fails).scan "input" = none ∧
    check_if_xpad_active (recorder scan_input_fails) (initial drivers_ABC)
      = .done false (initial drivers_ABC) ∧
    (main (recorder scan_input_fails) (initial drivers_ABC)).world.stdout = [LINE_NO_XPAD] ∧
    (main (recorder scan_input_fails) (initial drivers_ABC)).world.actions
      = [(SYSFS_HID_GENERIC_BIND, "hid0")] := by
  have h := scan_failure_runs_enable_pass (recorder scan_input_fails) (initial drivers_ABC) rfl
  refine ⟨rfl, h.1, ?_, ?_⟩
  · rw [h.2 rfl]; rfl
  · rw [h.2 rfl]; rfl

/-- C7, as stated, fails: `joystick1` does not pass the joystick test, its second
character is `o`. -/
theorem joystick1_is_not_matched :
    ¬ (sysname_is_js (some "js0") = some true ∧ sysname_is_js (some "jsx") = some true ∧
      sysname_is_js (some "joystick1") = some true) := by
  decide

/-- C7, amended: of input devices named `js0`, `joystick1` and `jsx`, the joystick test
of `enumerate_js_parent_devices` accepts `js0` and `jsx` and rejects `joystick1`; only
the ancestries of the first and the third are walked. -/
theorem joystick_filter_scenario {σ : Type} (cb : handle_js_parent_device_cb σ)
    (p0 p1 p2 : String) (q0 q1 q2 : Option Device) (s : σ) (w : World) :
    sysname_is_js (some "js0") = some true ∧ sysname_is_js (some "jsx") = some true ∧
    sysname_is_js (some "joystick1") = some false ∧
    js_entry_loop cb [some (.mk p0 (some "js0") q0), some (.mk p1 (some "joystick1") q1),
        some (.mk p2 (some "jsx") q2)] false s w
      = spec_enumerate cb [.mk p0 (some "js0") q0, .mk p2 (some "jsx") q2] s w := by
  refine ⟨by decide, by decide, by decide, ?_⟩
  rw [js_entry_loop_eq]
  have h0 : starts_with_js (some "js0") = true := by decide
  have h1 : starts_with_js (some "joystick1") = false := by decide
  have h2 : starts_with_js (some "jsx") = true := by decide
  simp [js_devices, udev_device_get_sysname, h0, h1, h2]

/-- C9: `enumerate_js_parent_devices` is total and, for every callback, makes the calls
of the specification: the devices of the scan whose sysname starts with `js` in
enumeration order, each contributing its ancestors nearest first until a device has no
parent, ending a device at `NEXT_DEVICE` and everything at `CANCEL_ENUMERATION`.  With
the calls recorded: a callback that always answers `IGNORE_PARENT` is passed every
ancestor of every such device, one that always answers `NEXT_DEVICE` only the nearest
ancestor of each, and one that always answers `CANCEL_ENUMERATION` only the first of
these. -/
theorem enumerate_js_parent_devices_calls {σ : Type} (env : Env)
    (cb : handle_js_parent_device_cb σ) (s : σ) (w : World) :
    enumerate_js_parent_devices env cb s w
      = (match env.scan "input" with
        | none => .done s w
        | some devices => spec_enumerate cb (js_devices devices) s w) ∧
    ∀ devices, env.scan "input" = some devices →
      ((∀ d s w, ∃ s' w', cb d s w = .done (IGNORE_PARENT, s') w') →
        ∃ s' w', enumerate_js_parent_devices env (record cb) (s, []) w
          = .done (s', ((js_devices devices).map ancestors).flatten) w') ∧
      ((∀ d s w, ∃ s' w', cb d s w = .done (NEXT_DEVICE, s') w') →
        ∃ s' w', enumerate_js_parent_devices env (record cb) (s, []) w
          = .done (s', ((js_devices devices).map (fun d => (ancestors d).take 1)).flatten) w') ∧
      ((∀ d s w, ∃ s' w', cb d s w = .done (CANCEL_ENUMERATION, s') w') →
        ∃ s' w', enumerate_js_parent_devices env (record cb) (s, []) w
          = .done (s',
              (((js_devices devices).map (fun d => (ancestors d).take 1)).flatten).take 1)
            w') := by
  constructor
  · unfold enumerate_js_parent_devices
    cases env.scan "input" with
    | none => rfl
    | some devices => simp only [js_entry_loop_eq]
  · intro devices hscan
    unfold enumerate_js_parent_devices
    simp only [hscan, js_entry_loop_eq]
    refine ⟨fun h => ?_, fun h => ?_, fun h => ?_⟩
    · simpa using spec_enumerate_record_ignore cb h (js_devices devices) s [] w
    · simpa using spec_enumerate_record_next cb h (js_devices devices) s [] w
    · simpa using spec_enumerate_record_cancel cb h (js_devices devices) s [] w

theorem enumerate_js_parent_devices_calls_witness :
    (recorder scan_two).scan "input" = some [some js0, none, some joystick1, some js_g] ∧
    (∃ s' w', enumerate_js_parent_devices (recorder scan_two) (record ignore_cb) ((), [])
        (initial drivers_ABC)
      = .done (s', [hid_A, hid_B, usb_C, hid_G, usb_G]) w') ∧
    (∃ s' w', enumerate_js_parent_devices (recorder scan_two) (record next_cb) ((), [])
        (initial drivers_ABC)
      = .done (s', [hid_A, hid_G]) w') ∧
    (∃ s' w', enumerate_js_parent_devices (recorder scan_two) (record cancel_cb) ((), [])
        (initial drivers_ABC)
      = .done (s', [hid_A]) w') :=
  ⟨rfl,
    ((enumerate_js_parent_devices_calls (recorder scan_two) ignore_cb ()
      (initial drivers_ABC)).2 _ rfl).1 (fun _ s w => ⟨s, w, rfl⟩),
    ((enumerate_js_parent_devices_calls (recorder scan_two) next_cb ()
      (initial drivers_ABC)).2 _ rfl).2.1 (fun _ s w => ⟨s, w, rfl⟩),
    ((enumerate_js_parent_devices_calls (recorder scan_two) cancel_cb ()
      (initial drivers_ABC)).2 _ rfl).2.2 (fun _ s w => ⟨s, w, rfl⟩)⟩

/-- C10: the joystick test of `enumerate_js_parent_devices` never reads outside the
NUL-terminated sysname (a read at index `i` is inside exactly when `i` is at most the
length), and it accepts exactly when the sysname is present, has at least two
characters and these are `j` then `s`; an entry that fails the test changes nothing in
the enumeration, so none of its ancestors is passed to the callback. -/
theorem joystick_test_exact :
    (∀ n : Option String, ∃ b, sysname_is_js n = some b ∧
      (b = true ↔ ∃ s, n = some s ∧ 2 ≤ s.length ∧
        s.toList[0]? = some 'j' ∧ s.toList[1]? = some 's')) ∧
    (∀ (s : String) (i : Nat), c_read s i ≠ none ↔ i ≤ strlen s) ∧
    (∀ (σ : Type) (cb : handle_js_parent_device_cb σ) (pre post : List (Option Device))
        (dev : Device) (s : σ) (w : World),
      sysname_is_js (udev_device_get_sysname dev) ≠ some true →
      js_entry_loop cb (pre ++ some dev :: post) false s w
        = js_entry_loop cb (pre ++ post) false s w) := by
  refine ⟨?_, ?_, ?_⟩
  · intro n
    refine ⟨_, sysname_is_js_eq n, ?_⟩
    cases n with
    | none => simp [starts_with_js]
    | some s =>
      rcases s with ⟨l⟩
      simp only [starts_with_js, String.toList, String.length, decide_eq_true_eq,
        Option.some.injEq, exists_eq_left']
      rcases l with _ | ⟨c, _ | ⟨c2, t⟩⟩ <;> simp
  · intro s i
    unfold c_read c_str strlen
    rw [ne_eq, List.getElem?_eq_none_iff]
    simp
    omega
  · intro σ cb pre post dev s w h
    rw [js_entry_loop_eq, js_entry_loop_eq]
    have hf : starts_with_js (udev_device_get_sysname dev) = false := by
      rw [sysname_is_js_eq] at h
      cases hb : starts_with_js (udev_device_get_sysname dev) with
      | false => rfl
      | true => exact absurd (by rw [hb]) h
    simp [js_devices, hf]

theorem joystick_test_exact_witness :
    sysname_is_js (udev_device_get_sysname joystick1) ≠ some true ∧
    js_entry_loop (record ignore_cb) ([some js0] ++ some joystick1 :: [none]) false ((), [])
        (initial drivers_ABC)
      = js_entry_loop (record ignore_cb) ([some js0] ++ [none]) false ((), [])
        (initial drivers_ABC) :=
  ⟨by decide, joystick_test_exact.2.2 _ (record ignore_cb) [some js0] [none] joystick1 ((), [])
    (initial drivers_ABC) (by decide)⟩

/-- C2, as stated, fails: the nearest ancestor bound to `hid-generic` is A, which has no
sysname; the pass goes on to B and unbinds it. -/
theorem unbind_passes_over_unnamed_ancestor :
    ((ancestors js0_unnamed).find? (fun a => decide
        (udev_device_get_driver (initial drivers_ABC) a = some "hid-generic"))).map
      Device.syspath = some "/sys/C/B/A" ∧
    (deactivate_hid_generic_js_devices (recorder scan_unnamed)
      (initial drivers_ABC)).world.actions = [(SYSFS_HID_GENERIC_UNBIND, "B")] ∧
    (deactivate_hid_generic_js_devices (recorder scan_unnamed)
      (initial drivers_ABC)).world.actions
      ≠ ((js_devices [some js0_unnamed]).filterMap
          (claimed_unbind_target (initial drivers_ABC))).map
        (Prod.mk SYSFS_HID_GENERIC_UNBIND) := by
  decide

/-- C2, amended: when the scan of the input subsystem succeeds and the unbind file can
be opened, `deactivate_hid_generic_js_devices` issues, for each device whose sysname
starts with `js`, in enumeration order, exactly one unbind of the nearest ancestor that
is bound to `hid-generic` and has a sysname, and none for a device without such an
ancestor; when the writes leave the bindings as they are, the actions issued are those
read from the initial tree. -/
theorem deactivate_unbinds_nearest_target (env : Env) (w : World)
    (devices : List (Option Device)) (hscan : env.scan "input" = some devices)
    (ho : opens env SYSFS_HID_GENERIC_UNBIND) :
    deactivate_hid_generic_js_devices env w
      = .done () ((js_devices devices).foldl (unbind_step env) w) ∧
    (keeps_bindings env SYSFS_HID_GENERIC_UNBIND →
      deactivate_hid_generic_js_devices env w
        = .done () { w with actions := (w.actions ++
            ((js_devices devices).filterMap (nearest_unbind_target w)).map
              (Prod.mk SYSFS_HID_GENERIC_UNBIND)) }) := by
  have h : deactivate_hid_generic_js_devices env w
      = .done () ((js_devices devices).foldl (unbind_step env) w) := by
    unfold deactivate_hid_generic_js_devices enumerate_js_parent_devices
    simp only [hscan, js_entry_loop_eq, spec_enumerate_deactivate env ho]
  refine ⟨h, fun hk => ?_⟩
  rw [h, foldl_unbind_step_static env hk]

theorem deactivate_unbinds_nearest_target_witness :
    (recorder scan_ABC).scan "input" = some [some js0] ∧
    opens (recorder scan_ABC) SYSFS_HID_GENERIC_UNBIND ∧
    keeps_bindings (recorder scan_ABC) SYSFS_HID_GENERIC_UNBIND ∧
    (deactivate_hid_generic_js_devices (recorder scan_ABC) (initial drivers_ABC)).world.actions
      = [(SYSFS_HID_GENERIC_UNBIND, "A")] :=
  ⟨rfl, fun _ => rfl, fun _ _ => rfl, by
    rw [(deactivate_unbinds_nearest_target (recorder scan_ABC) (initial drivers_ABC)
      [some js0] rfl (fun _ => rfl)).2 (fun _ _ => rfl)]
    decide⟩

/-- C3, as stated, fails: a device of the hid scan has no driver and no sysname, and no
bind is issued for it. -/
theorem unnamed_device_is_not_bound :
    (claimed_bind_devices (initial (fun _ => none)) [some hid_unnamed]).length = 1 ∧
    (activate_hid_generic_js_devices (recorder scan_hid_unnamed)
      (initial (fun _ => none))).world.actions = [] := by
  decide

/-- C3, amended: when the scan of the hid subsystem succeeds and the bind file can be
opened, `activate_hid_generic_js_devices` issues a bind for exactly the devices that
have no driver and have a sysname, once each and in enumeration order, and nothing for
a device that has a driver; when the writes leave the bindings as they are, the actions
issued are those read from the initial list. -/
theorem activate_binds_unbound_devices (env : Env) (w : World)
    (devices : List (Option Device)) (hscan : env.scan "hid" = some devices)
    (ho : opens env SYSFS_HID_GENERIC_BIND) :
    activate_hid_generic_js_devices env w = .done () (devices.foldl (bind_step env) w) ∧
    (∀ dev : Device, udev_device_get_driver w dev ≠ none →
      bind_step env w (some dev) = w) ∧
    (keeps_bindings env SYSFS_HID_GENERIC_BIND →
      activate_hid_generic_js_devices env w
        = .done () { w with actions := w.actions ++
            (devices.filterMap (bind_target w)).map (Prod.mk SYSFS_HID_GENERIC_BIND) }) := by
  have h : activate_hid_generic_js_devices env w
      = .done () (devices.foldl (bind_step env) w) := by
    unfold activate_hid_generic_js_devices
    simp only [hscan, hid_entry_loop_eq env ho]
  refine ⟨h, fun dev hd => ?_, fun hk => ?_⟩
  · simp [bind_step, bind_target, hd]
  · rw [h, foldl_bind_step_static env hk]

theorem activate_binds_unbound_devices_witness :
    (recorder scan_hid01).scan "hid" = some [some hid0, some hid1] ∧
    opens (recorder scan_hid01) SYSFS_HID_GENERIC_BIND ∧
    keeps_bindings (recorder scan_hid01) SYSFS_HID_GENERIC_BIND ∧
    (activate_hid_generic_js_devices (recorder scan_hid01) (initial drivers_hid01)).world.actions
      = [(SYSFS_HID_GENERIC_BIND, "hid0")] :=
  ⟨rfl, fun _ => rfl, fun _ _ => rfl, by
    rw [(activate_binds_unbound_devices (recorder scan_hid01) (initial drivers_hid01)
      [some hid0, some hid1] rfl (fun _ => rfl)).2.2 (fun _ _ => rfl)]
    decide⟩

/-- C8, as stated, fails: with a udev context and the classification true, the unbind
file cannot be opened, the assertion of `write_str_to_file` aborts the run at the first
unbind, and the run returns no exit code. -/
theorem aborted_run_returns_no_exit_code :
    (never_opens scan_ABC).udev_new = true ∧
    (main (never_opens scan_ABC) (initial drivers_ABC)).value = none ∧
    (main (never_opens scan_ABC) (initial drivers_ABC)).value ≠ some 0 ∧
    (main (never_opens scan_ABC) (initial drivers_ABC)).world.actions = [] ∧
    (main (never_opens scan_ABC) (initial drivers_ABC)).world.stdout = [LINE_XPAD_ACTIVE] := by
  refine ⟨rfl, ?_, ?_, ?_, ?_⟩ <;> decide

/-- C8, amended: a run of `main` with a udev context classifies once, which issues no
action and leaves the state as it is, and then runs one pass: the disable pass when the
classification is true, and every action of the run is then an unbind; the enable pass
when it is false, and every action is then a bind.  Every exit code the run returns is
0, and when the control files can be opened the run does return exit code 0. -/
theorem main_runs_one_pass (env : Env) (w : World) (hu : env.udev_new = true) :
    ∃ b, check_if_xpad_active env w = .done b w ∧
      main env w
        = (match (if b = true then
              deactivate_hid_generic_js_devices env
                (printf LINE_XPAD_ACTIVE w)
            else
              activate_hid_generic_js_devices env
                (printf LINE_NO_XPAD w)) with
          | .aborted w' => .aborted w'
          | .done _ w2 => .done 0 w2) ∧
      (∃ extra, (main env w).world.actions = w.actions ++ extra ∧
        ∀ a ∈ extra, a.1 = if b = true then SYSFS_HID_GENERIC_UNBIND
          else SYSFS_HID_GENERIC_BIND) ∧
      (∀ code w', main env w = .done code w' → code = 0) ∧
      (opens env SYSFS_HID_GENERIC_UNBIND → opens env SYSFS_HID_GENERIC_BIND →
        (main env w).value = some 0) := by
  refine ⟨_, check_if_xpad_active_eq env w, main_eq env w hu _ (check_if_xpad_active_eq env w),
    ?_, ?_, ?_⟩
  · rw [main_eq env w hu _ (check_if_xpad_active_eq env w)]
    generalize (match env.scan "input" with
      | none => false
      | some devices => (js_devices devices).any (fun d => (ancestors d).any
          (fun a => decide (udev_device_get_driver w a = some "xpad")))) = b
    cases b
    · obtain ⟨extra, h1, h2⟩ := activate_actions env
        (printf LINE_NO_XPAD w)
      refine ⟨extra, ?_, by simpa using h2⟩
      simp only [Bool.false_eq_true, if_false]
      cases hr : activate_hid_generic_js_devices env
          (printf LINE_NO_XPAD w) with
      | aborted w' => rw [hr] at h1; simpa [Res.world, printf] using h1
      | done u w2 => rw [hr] at h1; simpa [Res.world, printf] using h1
    · obtain ⟨extra, h1, h2⟩ := deactivate_actions env
        (printf LINE_XPAD_ACTIVE w)
      refine ⟨extra, ?_, by simpa using h2⟩
      simp only [if_true]
      cases hr : deactivate_hid_generic_js_devices env
          (printf LINE_XPAD_ACTIVE w) with
      | aborted w' => rw [hr] at h1; simpa [Res.world, printf] using h1
      | done u w2 => rw [hr] at h1; simpa [Res.world, printf] using h1
  · intro code w' hm
    rw [main_eq env w hu _ (check_if_xpad_active_eq env w)] at hm
    split at hm
    · exact absurd hm (by simp)
    · injection hm with h1 _
      exact h1.symm
  · intro hou hob
    rw [main_eq env w hu _ (check_if_xpad_active_eq env w)]
    generalize (match env.scan "input" with
      | none => false
      | some devices => (js_devices devices).any (fun d => (ancestors d).any
          (fun a => decide (udev_device_get_driver w a = some "xpad")))) = b
    cases b
    · obtain ⟨w2, h⟩ := activate_done env
        (printf LINE_NO_XPAD w) hob
      simp [h, Res.value]
    · obtain ⟨w2, h⟩ := deactivate_done env
        (printf LINE_XPAD_ACTIVE w) hou
      simp [h, Res.value]

theorem main_runs_one_pass_witness :
    (recorder scan_ABC).udev_new = true ∧
    ∃ b, check_if_xpad_active (recorder scan_ABC) (initial drivers_ABC)
        = .done b (initial drivers_ABC) ∧
      main (recorder scan_ABC) (initial drivers_ABC)
        = (match (if b = true then
              deactivate_hid_generic_js_devices (recorder scan_ABC)
                (printf LINE_XPAD_ACTIVE
                  (initial drivers_ABC))
            else
              activate_hid_generic_js_devices (recorder scan_ABC)
                (printf LINE_NO_XPAD
                  (initial drivers_ABC))) with
          | .aborted w' => .aborted w'
          | .done _ w2 => .done 0 w2) ∧
      (∃ extra, (main (recorder scan_ABC) (initial drivers_ABC)).world.actions
          = (initial drivers_ABC).actions ++ extra ∧
        ∀ a ∈ extra, a.1 = if b = true then SYSFS_HID_GENERIC_UNBIND
          else SYSFS_HID_GENERIC_BIND) ∧
      (∀ code w', main (recorder scan_ABC) (initial drivers_ABC) = .done code w' → code = 0) ∧
      (opens (recorder scan_ABC) SYSFS_HID_GENERIC_UNBIND →
        opens (recorder scan_ABC) SYSFS_HID_GENERIC_BIND →
        (main (recorder scan_ABC) (initial drivers_ABC)).value = some 0) :=
  ⟨rfl, main_runs_one_pass (recorder scan_ABC) (initial drivers_ABC) rfl⟩

/-- C6, as stated, fails: every `write` to the bind file fails, and the run goes on, issues
the bind of the next device and returns exit code 0. -/
theorem failed_write_is_not_fatal :
    (failing_writes scan_hid01).sysfs_write SYSFS_HID_GENERIC_BIND "hid0" (fun _ => none)
      = none ∧
    (main (failing_writes scan_hid01) (initial (fun _ => none))).value = some 0 ∧
    (main (failing_writes scan_hid01) (initial (fun _ => none))).world.actions
      = [(SYSFS_HID_GENERIC_BIND, "hid0"), (SYSFS_HID_GENERIC_BIND, "hid1")] := by
  refine ⟨rfl, ?_, ?_⟩ <;> decide

/-- C6, amended: when `write_str_to_file` cannot open the control path, the process is
aborted there and nothing is written: a run of `main` that reaches, in either pass, a
device to bind or unbind while the control file cannot be opened ends aborted in the
state reached before that device, whatever devices remain.  When the file can be
opened, `write_str_to_file` returns whether the `write` succeeds or fails, and the run
goes on. -/
theorem open_failure_is_fatal (env : Env) :
    (∀ path value w, env.sysfs_open path w = false →
      write_str_to_file env path value w = .aborted w) ∧
    (∀ path value w, env.sysfs_open path w = true →
      write_str_to_file env path value w = .done () (written env path value w)) ∧
    (∀ (pre post : List (Option Device)) (dev : Device) (name : String) (w w1 : World),
      env.udev_new = true → check_if_xpad_active env w = .done false w →
      env.scan "hid" = some (pre ++ some dev :: post) →
      hid_entry_loop env pre
        (printf LINE_NO_XPAD w) = .done () w1 →
      bind_target w1 (some dev) = some name →
      env.sysfs_open SYSFS_HID_GENERIC_BIND w1 = false →
      main env w = .aborted w1) ∧
    (∀ (devices : List (Option Device)) (pre post : List Device) (d : Device)
        (name : String) (w w1 : World),
      env.udev_new = true → check_if_xpad_active env w = .done true w →
      env.scan "input" = some devices → js_devices devices = pre ++ d :: post →
      spec_enumerate (deactivate_device_if_hid_generic_cb env) pre ()
        (printf LINE_XPAD_ACTIVE w) = .done () w1 →
      nearest_unbind_target w1 d = some name →
      env.sysfs_open SYSFS_HID_GENERIC_UNBIND w1 = false →
      main env w = .aborted w1) := by
  refine ⟨?_, ?_, ?_, ?_⟩
  · intro path value w h
    simp [write_str_to_file_eq, h]
  · intro path value w h
    simp [write_str_to_file_eq, h]
  · intro pre post dev name w w1 hu hc hscan hpre ht ho
    rw [main_eq env w hu false hc]
    simp only [Bool.false_eq_true, if_false]
    unfold activate_hid_generic_js_devices
    simp only [hscan]
    rw [hid_entry_loop_append, hpre]
    simp only [bind_target] at ht
    cases hd : udev_device_get_driver w1 dev with
    | some drv => simp [hd] at ht
    | none =>
      simp only [hd, if_true] at ht
      simp [hid_entry_loop, hd, ht, write_str_to_file_eq, ho]
  · intro devices pre post d name w w1 hu hc hscan hjs hpre ht ho
    rw [main_eq env w hu true hc]
    simp only [if_true]
    rw [deactivate_eq_spec]
    simp only [hscan, hjs]
    rw [spec_enumerate_deactivate_append, hpre]
    simp only [nearest_unbind_target] at ht
    simp [spec_enumerate, spec_walk_deactivate, ht, ho]

theorem open_failure_is_fatal_witness :
    (opens_once scan_hid01).udev_new = true ∧
    check_if_xpad_active (opens_once scan_hid01) (initial (fun _ => none))
      = .done false (initial (fun _ => none)) ∧
    (opens_once scan_hid01).scan "hid" = some ([some hid0] ++ some hid1 :: []) ∧
    (main (opens_once scan_hid01) (initial (fun _ => none))).value = none ∧
    (main (opens_once scan_hid01) (initial (fun _ => none))).world.actions
      = [(SYSFS_HID_GENERIC_BIND, "hid0")] := by
  have h := (open_failure_is_fatal (opens_once scan_hid01)).2.2.1 [some hid0] [] hid1 "hid1"
    (initial (fun _ => none))
    (written (opens_once scan_hid01) SYSFS_HID_GENERIC_BIND "hid0"
      (printf LINE_NO_XPAD
        (initial (fun _ => none))))
    rfl rfl rfl rfl rfl rfl
  refine ⟨rfl, rfl, rfl, ?_, ?_⟩
  · rw [h]; rfl
  · rw [h]; rfl

/-- C4, as stated, fails: with ancestry A, B, C the first run unbinds A, the second run
finds B still bound to `hid-generic`, unbinds it and changes the bindings. -/
theorem second_run_unbinds_again :
    (main (simulated scan_ABC) (initial drivers_ABC)).world.actions
      = [(SYSFS_HID_GENERIC_UNBIND, "A")] ∧
    (main (simulated scan_ABC)
        (main (simulated scan_ABC) (initial drivers_ABC)).world).world.actions
      = [(SYSFS_HID_GENERIC_UNBIND, "A"), (SYSFS_HID_GENERIC_UNBIND, "B")] ∧
    (main (simulated scan_ABC) (initial drivers_ABC)).world.drivers "/sys/C/B"
      = some "hid-generic" ∧
    (main (simulated scan_ABC)
        (main (simulated scan_ABC) (initial drivers_ABC)).world).world.drivers "/sys/C/B"
      = none := by
  refine ⟨?_, ?_, ?_, ?_⟩ <;> decide

/-- C4, amended: on a simulated device tree in which, when the classification is true,
no device whose sysname starts with `js` has more than one ancestor that is bound to
`hid-generic` and has a sysname, both of two runs of `main` in succession return exit
code 0, and the second run leaves the driver bindings as the first run left them and
issues no bind or unbind. -/
theorem second_run_is_idle (scan : String → Option (List (Option Device))) (w : World)
    (h : check_if_xpad_active (simulated scan) w = .done true w →
      ∀ devices, scan "input" = some devices → ∀ d ∈ js_devices devices,
        ((ancestors d).filter (is_unbind_target w)).length ≤ 1) :
    ∃ w1 w2, main (simulated scan) w = .done 0 w1 ∧ main (simulated scan) w1 = .done 0 w2 ∧
      w2.drivers = w1.drivers ∧ w2.actions = w1.actions := by
  have hb := check_if_xpad_active_eq (simulated scan) w
  generalize (match (simulated scan).scan "input" with
    | none => false
    | some devices => (js_devices devices).any (fun d => (ancestors d).any
        (fun a => decide (udev_device_get_driver w a = some "xpad")))) = b at hb
  cases b
  · exact enable_run_twice scan w hb
  · exact disable_run_twice scan w hb (h hb)

theorem second_run_is_idle_witness :
    (∀ devices, scan_pair "input" = some devices → ∀ d ∈ js_devices devices,
      ((ancestors d).filter (is_unbind_target (initial drivers_pair))).length ≤ 1) ∧
    (main (simulated scan_pair) (initial drivers_pair)).world.actions
      = [(SYSFS_HID_GENERIC_UNBIND, "0003:G")] ∧
    ∃ w1 w2, main (simulated scan_pair) (initial drivers_pair) = .done 0 w1 ∧
      main (simulated scan_pair) w1 = .done 0 w2 ∧
      w2.drivers = w1.drivers ∧ w2.actions = w1.actions := by
  have hyp : ∀ devices, scan_pair "input" = some devices → ∀ d ∈ js_devices devices,
      ((ancestors d).filter (is_unbind_target (initial drivers_pair))).length ≤ 1 := by
    intro devices hs d hd
    have h0 : scan_pair "input" = some [some js_x, some js_g] := rfl
    rw [h0] at hs
    have hdev : devices = [some js_x, some js_g] := (Option.some.inj hs).symm
    subst hdev
    have hjs : js_devices [some js_x, some js_g] = [js_x, js_g] := by
      have hx : starts_with_js (udev_device_get_sysname js_x) = true := by decide
      have hg : starts_with_js (udev_device_get_sysname js_g) = true := by decide
      simp [js_devices, hx, hg]
    rw [hjs] at hd
    simp only [List.mem_cons, List.mem_singleton, List.not_mem_nil, or_false] at hd
    rcases hd with h | h <;> subst h <;> decide
  exact ⟨hyp, by decide,
    second_run_is_idle scan_pair (initial drivers_pair) (fun _ => hyp)⟩

end XpadJoystickDisabler
